import Mathlib

/-! Chemical Equipment Parameter Visualiser: the front end.

A shallow embedding of the React front end (`App.jsx`, `pages/Login.jsx`,
`pages/Signup.jsx`, `pages/Dashboard.jsx`) and the properties of its session
gate and of its report view.

Conventions of the embedding.

* A JavaScript string is a Lean `String`.  JavaScript measures a string in
  UTF-16 code units, so `jsLength` counts two units for a character above
  U+FFFF.  Strings holding a lone surrogate are not represented.
* An event handler is a function from the values it reads (props, component
  state, the event) and from the reply of the network to the list of effects
  it performs, in the order in which it performs them.  A component state
  after the handler is the fold of the state setters of that list.
* `axios` rejects the promise of a request whose reply has a status outside
  `200 ..< 300` (its default `validateStatus`) and of a request that got no
  reply at all; `err.response` is then the reply, or `undefined`.
-/

namespace ChemViz

/-! ## JavaScript strings -/

/-- WhiteSpace and LineTerminator code points of ECMAScript, the ones that
`String.prototype.trim` strips. -/
def isJsWhiteSpace (c : Char) : Bool :=
  let n := c.toNat
  n == 0x09 || n == 0x0A || n == 0x0B || n == 0x0C || n == 0x0D || n == 0x20 ||
  n == 0xA0 || n == 0x1680 || (0x2000 ≤ n && n ≤ 0x200A) || n == 0x2028 ||
  n == 0x2029 || n == 0x202F || n == 0x205F || n == 0x3000 || n == 0xFEFF

/-- The characters of `s.trim()`. -/
def trimChars (cs : List Char) : List Char :=
  ((cs.dropWhile isJsWhiteSpace).reverse.dropWhile isJsWhiteSpace).reverse

/-- JavaScript `s.trim()`. -/
def jsTrim (s : String) : String := ⟨trimChars s.data⟩

/-- Truthiness of a JavaScript string: every string but the empty one. -/
def truthy (s : String) : Bool := !s.data.isEmpty

/-- Number of UTF-16 code units of one character. -/
def utf16Units (c : Char) : Nat := if c.toNat ≤ 0xFFFF then 1 else 2

/-- JavaScript `s.length`: the number of UTF-16 code units. -/
def jsLength (s : String) : Nat := (s.data.map utf16Units).sum

/-- The base64 alphabet. -/
def base64Alphabet : List Char :=
  "ABCDEFGHIJKLMNOPQRSTUVWXYZabcdefghijklmnopqrstuvwxyz0123456789+/".data

/-- The base64 digit of a 6-bit value. -/
def base64Digit (n : Nat) : Char := base64Alphabet.getD (n % 64) 'A'

/-- Base64 of a list of bytes, three bytes to four digits, padded with `=`. -/
def base64Encode : List Nat → List Char
  | [] => []
  | [a] => [base64Digit (a / 4), base64Digit (a % 4 * 16), '=', '=']
  | [a, b] =>
      [base64Digit (a / 4), base64Digit (a % 4 * 16 + b / 16),
       base64Digit (b % 16 * 4), '=']
  | a :: b :: c :: rest =>
      base64Digit (a / 4) :: base64Digit (a % 4 * 16 + b / 16) ::
      base64Digit (b % 16 * 4 + c / 64) :: base64Digit (c % 64) ::
      base64Encode rest

/-- The browser's `btoa`: base64 of a binary string.  It throws
`InvalidCharacterError` (here `none`) when a code unit is above U+00FF. -/
def btoa (s : String) : Option String :=
  if s.data.all (fun c => c.toNat ≤ 0xFF) then
    some ⟨base64Encode (s.data.map Char.toNat)⟩
  else none

/-- JavaScript `parts.join(sep)`. -/
def jsJoin (sep : String) : List String → String
  | [] => ""
  | [a] => a
  | a :: b :: rest => a ++ sep ++ jsJoin sep (b :: rest)

/-! ## The network, as `axios` presents it -/

/-- An HTTP reply: its status and its parsed body. -/
structure Reply (α : Type) where
  status : Nat
  data : α
  deriving DecidableEq, Repr

/-- What the network gives a request: a reply, or nothing at all (network
error, CORS failure, timeout). -/
abbrev NetResult (α : Type) := Option (Reply α)

/-- The default `validateStatus` of `axios`. -/
def validateStatus (status : Nat) : Bool := decide (200 ≤ status) && decide (status < 300)

/-- How the promise of an `axios` request settles. -/
inductive Settled (α : Type) where
  /-- The promise resolves with the reply. -/
  | fulfilled (response : Reply α)
  /-- The promise rejects; `response` is `err.response`. -/
  | rejected (response : Option (Reply α))
  deriving DecidableEq, Repr

/-- The promise of an `axios` request, given what the network gave it. -/
def axiosSettle {α : Type} : NetResult α → Settled α
  | some r => if validateStatus r.status then .fulfilled r else .rejected (some r)
  | none => .rejected none

/-- The value of `err.response?.status`. -/
def errStatus {α : Type} (response : Option (Reply α)) : Option Nat :=
  response.map Reply.status

inductive Method where
  | GET
  | POST
  deriving DecidableEq, Repr

/-- A file picked in a file input. -/
structure File where
  name : String
  text : String
  deriving DecidableEq, Repr

inductive Body where
  | empty
  | json (fields : List (String × String))
  | formData (fields : List (String × File))
  deriving DecidableEq, Repr

/-- A request handed to `axios`. -/
structure Request where
  method : Method
  url : String
  headers : List (String × String)
  timeout : Option Nat
  body : Body
  deriving DecidableEq, Repr

/-- The constant `API_BASE` of the three pages:
`import.meta.env.VITE_API_URL || 'http://127.0.0.1:8000'`. -/
def API_BASE (VITE_API_URL : Option String) : String :=
  match VITE_API_URL with
  | some u => if truthy u then u else "http://127.0.0.1:8000"
  | none => "http://127.0.0.1:8000"

/-! ## localStorage -/

/-- The key/value pairs of `localStorage`, one pair a key. -/
abbrev Storage := List (String × String)

/-- JavaScript `localStorage.getItem(key)`; `none` is `null`. -/
def getItem (ls : Storage) (key : String) : Option String :=
  (ls.find? (fun e => e.1 == key)).map Prod.snd

/-- JavaScript `localStorage.removeItem(key)`. -/
def removeItem (ls : Storage) (key : String) : Storage :=
  ls.filter (fun e => e.1 != key)

/-- JavaScript `localStorage.setItem(key, value)`. -/
def setItem (ls : Storage) (key value : String) : Storage :=
  (key, value) :: removeItem ls key

/-! ## `App.jsx` -/

/-- The state of the `App` component (`isAuthenticated`, `authHeader`,
`darkMode`) and the browser state it reads and writes (`localStorage`, and
whether the root element carries the class `dark`). -/
structure App where
  isAuthenticated : Bool
  authHeader : String
  darkMode : Bool
  localStorage : Storage
  darkClass : Bool
  deriving DecidableEq, Repr

/-- The state of `App` at its first render: the three `useState` initial values. -/
def App.initial (localStorage : Storage) (darkClass : Bool) : App :=
  { isAuthenticated := false, authHeader := "", darkMode := false,
    localStorage := localStorage, darkClass := darkClass }

/-- The mount effect of `App` (`useEffect(..., [])`): the saved theme, then the
saved credential.  `prefersDark` is
`window.matchMedia('(prefers-color-scheme: dark)').matches`. -/
def restore (prefersDark : Bool) (app : App) : App :=
  let savedTheme := getItem app.localStorage "theme"
  let app1 :=
    if savedTheme = some "dark" ||
        ((match savedTheme with | some t => !truthy t | none => true) && prefersDark) then
      { app with darkMode := true, darkClass := true }
    else app
  match getItem app1.localStorage "authHeader" with
  | some savedAuth =>
      if truthy savedAuth then { app1 with authHeader := savedAuth, isAuthenticated := true }
      else app1
  | none => app1

def toggleDarkMode (app : App) : App :=
  if !app.darkMode then
    { app with darkMode := !app.darkMode, darkClass := true,
               localStorage := setItem app.localStorage "theme" "dark" }
  else
    { app with darkMode := !app.darkMode, darkClass := false,
               localStorage := setItem app.localStorage "theme" "light" }

def handleLoginSuccess (auth : String) (app : App) : App :=
  { app with authHeader := auth, isAuthenticated := true,
             localStorage := setItem app.localStorage "authHeader" auth }

def handleLogout (app : App) : App :=
  { app with isAuthenticated := false, authHeader := "",
             localStorage := removeItem app.localStorage "authHeader" }

/-! ## `pages/Login.jsx` -/

namespace Login

/-- The `useState` cells of the `Login` component. -/
structure State where
  username : String
  password : String
  showPassword : Bool
  error : String
  loading : Bool
  deriving DecidableEq, Repr

/-- What `handleLogin` does, one effect a statement. -/
inductive Effect where
  | preventDefault
  | setError (msg : String)
  | setLoading (value : Bool)
  /-- The call `axios.get(...)`. -/
  | request (req : Request)
  /-- The call of the prop `onLoginSuccess`. -/
  | onLoginSuccess (auth : String)
  | navigate (path : String)
  /-- An exception that leaves the handler uncaught. -/
  | throw (error : String)
  deriving DecidableEq, Repr

/-- The state setters of an effect. -/
def State.step (st : State) : Effect → State
  | .setError msg => { st with error := msg }
  | .setLoading value => { st with loading := value }
  | _ => st

/-- The component state once the effects have been applied. -/
def State.run (st : State) (effects : List Effect) : State :=
  effects.foldl State.step st

/-- The requests among the effects, in order. -/
def requests (effects : List Effect) : List Request :=
  effects.filterMap (fun e => match e with | .request req => some req | _ => none)

/-- The paths navigated to, in order. -/
def navigations (effects : List Effect) : List String :=
  effects.filterMap (fun e => match e with | .navigate path => some path | _ => none)

/-- The credentials handed to `onLoginSuccess`, in order. -/
def successCalls (effects : List Effect) : List String :=
  effects.filterMap (fun e => match e with | .onLoginSuccess auth => some auth | _ => none)

/-- The verification request of `handleLogin`:
`axios.get(API_BASE + '/api/upload/', headers Authorization auth, timeout 10000)`. -/
def verificationGet (base auth : String) : Request :=
  { method := .GET, url := base ++ "/api/upload/", headers := [("Authorization", auth)],
    timeout := some 10000, body := .empty }

/-- The call `if (onLoginSuccess) onLoginSuccess(auth)`; `hasCallback` tells
whether the prop was given. -/
def callOnLoginSuccess (hasCallback : Bool) (auth : String) : List Effect :=
  if hasCallback then [.onLoginSuccess auth] else []

/-- The submit handler of the login form.  `net` is what the network gives the
verification request, if the handler gets to issue it. -/
def handleLogin {α : Type} (base : String) (hasCallback : Bool) (st : State)
    (net : NetResult α) : List Effect :=
  [.preventDefault, .setError "", .setLoading true] ++
  if !truthy (jsTrim st.username) || !truthy st.password then
    [.setError "Please enter both username and password", .setLoading false]
  else
    match btoa (st.username ++ ":" ++ st.password) with
    | none => [.throw "InvalidCharacterError"]
    | some encoded =>
      let auth := "Basic " ++ encoded
      [.request (verificationGet base auth)] ++
      (match axiosSettle net with
       | .fulfilled _ => callOnLoginSuccess hasCallback auth ++ [.navigate "/"]
       | .rejected response =>
         if errStatus response = some 401 then
           [.setError "Invalid username or password"]
         else if errStatus response = some 405 then
           callOnLoginSuccess hasCallback auth ++ [.navigate "/"]
         else
           callOnLoginSuccess hasCallback auth ++ [.navigate "/"]) ++
      [.setLoading false]

end Login

/-- The `App` state once the effects of `handleLogin` have reached it: `App`
passes `handleLoginSuccess` as the prop `onLoginSuccess`. -/
def App.afterLogin (app : App) (effects : List Login.Effect) : App :=
  effects.foldl
    (fun a e => match e with | .onLoginSuccess auth => handleLoginSuccess auth a | _ => a) app

/-! ## `pages/Signup.jsx` -/

namespace Signup

/-- The `useState` cells of the `Signup` component. -/
structure State where
  username : String
  email : String
  password : String
  confirmPassword : String
  showPassword : Bool
  error : String
  loading : Bool
  success : String
  deriving DecidableEq, Repr

/-- The body of a reply of the registration endpoint, as far as the handler
reads it: `errors` is `err.response?.data?.errors`, a mapping from field to
messages in property order, or `none` when the body has no such property. -/
structure RegisterData where
  errors : Option (List (String × List String))
  deriving DecidableEq, Repr

inductive Effect where
  | preventDefault
  | setError (msg : String)
  | setSuccess (msg : String)
  | setLoading (value : Bool)
  /-- The call `axios.post(...)`. -/
  | request (req : Request)
  /-- The call `setTimeout(() => navigate(path), delay)`. -/
  | scheduleNavigate (path : String) (delay : Nat)
  deriving DecidableEq, Repr

def State.step (st : State) : Effect → State
  | .setError msg => { st with error := msg }
  | .setSuccess msg => { st with success := msg }
  | .setLoading value => { st with loading := value }
  | _ => st

def State.run (st : State) (effects : List Effect) : State :=
  effects.foldl State.step st

def requests (effects : List Effect) : List Request :=
  effects.filterMap (fun e => match e with | .request req => some req | _ => none)

def scheduled (effects : List Effect) : List (String × Nat) :=
  effects.filterMap
    (fun e => match e with | .scheduleNavigate path delay => some (path, delay) | _ => none)

/-- The registration request of `handleSignup`. -/
def registerPost (base : String) (st : State) : Request :=
  { method := .POST, url := base ++ "/api/register/", headers := [], timeout := none,
    body := .json [("username", jsTrim st.username), ("email", jsTrim st.email),
                   ("password", st.password), ("confirm_password", st.confirmPassword)] }

/-- The messages `Object.values(errors).flat().join('. ')`. -/
def errorMessages (errors : List (String × List String)) : String :=
  jsJoin ". " (errors.map Prod.snd).flatten

/-- The submit handler of the signup form. -/
def handleSignup (base : String) (st : State) (net : NetResult RegisterData) : List Effect :=
  [.preventDefault, .setError "", .setSuccess "", .setLoading true] ++
  if st.password != st.confirmPassword then
    [.setError "Passwords do not match", .setLoading false]
  else if jsLength st.password < 6 then
    [.setError "Password must be at least 6 characters", .setLoading false]
  else
    [.request (registerPost base st)] ++
    (match axiosSettle net with
     | .fulfilled response =>
       if response.status = 201 then
         [.setSuccess "Account created successfully!", .scheduleNavigate "/login" 2000]
       else []
     | .rejected response =>
       match response.bind (fun r => r.data.errors) with
       | some errors => [.setError (errorMessages errors)]
       | none => [.setError "Registration failed. Please try again."]) ++
    [.setLoading false]

end Signup

/-! ## `pages/Dashboard.jsx` -/

/-- A JSON number as the backend writes it: `mantissa / 10 ^ exponent`, so
that `5.2` is `52` with exponent `1`.  The front end does no arithmetic on it. -/
structure JsonNumber where
  mantissa : Int
  exponent : Nat
  deriving DecidableEq, Repr

/-- The `type_distribution` object: its properties in enumeration order; an
object has each key once. -/
abbrev TypeDistribution := { entries : List (String × Nat) // (entries.map Prod.fst).Nodup }

/-- JavaScript `Object.keys(obj)`. -/
def objectKeys (obj : TypeDistribution) : List String := obj.val.map Prod.fst

/-- JavaScript `Object.values(obj)`. -/
def objectValues (obj : TypeDistribution) : List Nat := obj.val.map Prod.snd

/-- The value `obj[key]`; `none` is `undefined`. -/
def objectGet (obj : TypeDistribution) (key : String) : Option Nat :=
  (obj.val.find? (fun e => e.1 == key)).map Prod.snd

/-- The statistics report of one batch. -/
structure Statistics where
  total_count : Nat
  average_flowrate : JsonNumber
  average_pressure : JsonNumber
  average_temperature : JsonNumber
  type_distribution : TypeDistribution
  deriving DecidableEq, Repr

/-- The body of a successful reply of `POST /api/upload/` and of
`GET /api/batch/{id}/`. -/
structure ReportData where
  batch_id : Nat
  statistics : Statistics
  deriving DecidableEq, Repr

/-- One entry of the upload history.  `uploaded_at` is the instant its date
string denotes, in milliseconds since the epoch. -/
structure BatchSummary where
  id : Nat
  filename : String
  uploaded_at : Nat
  deriving DecidableEq, Repr

namespace Dashboard

/-- The `useState` cells of the `Dashboard` component. -/
structure State where
  stats : Option Statistics
  loading : Bool
  error : String
  batchId : Option Nat
  recentUploads : List BatchSummary
  isRecentUploadsOpen : Bool
  deriving DecidableEq, Repr

/-- The state of `Dashboard` at its first render. -/
def State.initial : State :=
  { stats := none, loading := false, error := "", batchId := none, recentUploads := [],
    isRecentUploadsOpen := true }

inductive Effect where
  | setStats (statistics : Statistics)
  | setBatchId (id : Nat)
  | setLoading (value : Bool)
  | setError (msg : String)
  | setRecentUploads (uploads : List BatchSummary)
  /-- A call of `axios.get` or `axios.post`. -/
  | request (req : Request)
  /-- The call of the prop `onLogout`. -/
  | onLogout
  /-- The call `window.scrollTo` with this `top`. -/
  | scrollTo (top : Nat)
  | consoleError (msg : String)
  deriving DecidableEq, Repr

def State.step (st : State) : Effect → State
  | .setStats statistics => { st with stats := some statistics }
  | .setBatchId id => { st with batchId := some id }
  | .setLoading value => { st with loading := value }
  | .setError msg => { st with error := msg }
  | .setRecentUploads uploads => { st with recentUploads := uploads }
  | _ => st

def State.run (st : State) (effects : List Effect) : State :=
  effects.foldl State.step st

def requests (effects : List Effect) : List Request :=
  effects.filterMap (fun e => match e with | .request req => some req | _ => none)

/-- The number of calls of the prop `onLogout`. -/
def logoutCalls (effects : List Effect) : Nat :=
  effects.count .onLogout

/-- The request of `fetchHistory`. -/
def historyGet (base authHeader : String) : Request :=
  { method := .GET, url := base ++ "/api/upload/", headers := [("Authorization", authHeader)],
    timeout := none, body := .empty }

/-- The request of `handleBatchSelect`. -/
def batchGet (base authHeader : String) (id : Nat) : Request :=
  { method := .GET, url := base ++ "/api/batch/" ++ toString id ++ "/",
    headers := [("Authorization", authHeader)], timeout := none, body := .empty }

/-- The request of `handleFileUpload`. -/
def uploadPost (base authHeader : String) (file : File) : Request :=
  { method := .POST, url := base ++ "/api/upload/",
    headers := [("Content-Type", "multipart/form-data"), ("Authorization", authHeader)],
    timeout := none, body := .formData [("file", file)] }

/-- The part of `fetchHistory` that runs at once, up to its `await`: the
guard on the credential, then the request. -/
def fetchHistoryStart (base authHeader : String) : List Effect :=
  if !truthy authHeader then [] else [.request (historyGet base authHeader)]

/-- The part of `fetchHistory` that runs once its request has settled. -/
def fetchHistorySettle (authHeader : String) (net : NetResult (List BatchSummary)) :
    List Effect :=
  if !truthy authHeader then []
  else
    match axiosSettle net with
    | .fulfilled response => [.setRecentUploads response.data]
    | .rejected _ => [.consoleError "Failed to fetch history"]

def fetchHistory (base authHeader : String) (net : NetResult (List BatchSummary)) :
    List Effect :=
  fetchHistoryStart base authHeader ++ fetchHistorySettle authHeader net

def handleBatchSelect (base authHeader : String) (id : Nat) (net : NetResult ReportData) :
    List Effect :=
  [.setLoading true, .setError "", .request (batchGet base authHeader id)] ++
  (match axiosSettle net with
   | .fulfilled response =>
     [.setStats response.data.statistics, .setBatchId response.data.batch_id, .scrollTo 400]
   | .rejected response =>
     [.setError "Failed to load report."] ++
     (if errStatus response = some 401 then [.onLogout] else [])) ++
  [.setLoading false]

/-- The change handler of the file input.  `file` is `event.target.files[0]`,
`net` what the network gives the upload, `history` what it gives the request
of the `fetchHistory` call that follows a successful upload.  That call is not
awaited: its request leaves before the `finally` block runs, and it settles
after the handler has returned. -/
def handleFileUpload (base authHeader : String) (file : Option File)
    (net : NetResult ReportData) (history : NetResult (List BatchSummary)) : List Effect :=
  match file with
  | none => []
  | some f =>
    [.setLoading true, .setError "", .request (uploadPost base authHeader f)] ++
    (match axiosSettle net with
     | .fulfilled response =>
       [.setStats response.data.statistics, .setBatchId response.data.batch_id] ++
       fetchHistoryStart base authHeader ++ [.setLoading false] ++
       fetchHistorySettle authHeader history
     | .rejected response =>
       (if errStatus response = some 401 then
          [.setError "Session expired. Please login again.", .onLogout]
        else
          [.setError "Failed to upload file. Make sure Server is running!"]) ++
       [.consoleError "err"] ++ [.setLoading false])

/-- The click handler of the Export PDF button:
`batchId && window.open(API_BASE + '/api/export-pdf/' + batchId + '/', '_blank')`.
The result is the URL opened in a new tab, if any; `0` is falsy. -/
def exportPdf (base : String) (batchId : Option Nat) : Option String :=
  match batchId with
  | some id => if id = 0 then none else some (base ++ "/api/export-pdf/" ++ toString id ++ "/")
  | none => none

/-! ### What the component renders -/

/-- The text of the four stat cards, rendered when `stats` is set. -/
structure StatCards where
  totalEquipment : Nat
  avgFlowrate : JsonNumber
  avgPressure : JsonNumber
  avgTemperature : JsonNumber
  deriving DecidableEq, Repr

def statCards (st : State) : Option StatCards :=
  st.stats.map fun stats =>
    { totalEquipment := stats.total_count, avgFlowrate := stats.average_flowrate,
      avgPressure := stats.average_pressure, avgTemperature := stats.average_temperature }

/-- The `data` prop of a chart: its labels and its one dataset. -/
structure ChartData where
  labels : List String
  datasetLabel : String
  data : List Nat
  backgroundColor : List String
  borderColor : List String
  borderWidth : Nat
  deriving DecidableEq, Repr

/-- The pairs `bg`, `border` of `chartColors.pie`. -/
def pieColors : List (String × String) :=
  [("rgba(114, 227, 173, 0.7)", "#72e3ad"), ("rgba(59, 130, 246, 0.7)", "#3b82f6"),
   ("rgba(139, 92, 246, 0.7)", "#8b5cf6"), ("rgba(245, 158, 11, 0.7)", "#f59e0b"),
   ("rgba(16, 185, 129, 0.7)", "#10b981"), ("rgba(236, 72, 153, 0.7)", "#ec4899"),
   ("rgba(6, 182, 212, 0.7)", "#06b6d4"), ("rgba(249, 115, 22, 0.7)", "#f97316")]

/-- The `data` prop of the `Bar` chart. -/
def barData (stats : Statistics) : ChartData :=
  { labels := objectKeys stats.type_distribution, datasetLabel := "Count",
    data := objectValues stats.type_distribution,
    backgroundColor := ["rgba(114, 227, 173, 0.7)"], borderColor := ["#72e3ad"],
    borderWidth := 2 }

/-- The `data` prop of the `Pie` chart. -/
def pieData (stats : Statistics) : ChartData :=
  { labels := objectKeys stats.type_distribution, datasetLabel := "Count",
    data := objectValues stats.type_distribution,
    backgroundColor := pieColors.map Prod.fst, borderColor := pieColors.map Prod.snd,
    borderWidth := 2 }

/-- One button of the Recent Uploads list; `active` is `batchId === batch.id`
and `select` the batch id its click hands to `handleBatchSelect`. -/
structure UploadRow where
  key : Nat
  filename : String
  uploaded_at : Nat
  active : Bool
  select : Nat
  deriving DecidableEq, Repr

/-- The buttons of the Recent Uploads card: none while it is collapsed or the
list is empty, else `recentUploads.map(...)`. -/
def recentUploadRows (st : State) : List UploadRow :=
  if st.isRecentUploadsOpen then
    st.recentUploads.map fun batch =>
      { key := batch.id, filename := batch.filename, uploaded_at := batch.uploaded_at,
        active := decide (st.batchId = some batch.id), select := batch.id }
  else []

/-- The rows are ordered by `uploaded_at`, most recent first. -/
def mostRecentFirst (rows : List UploadRow) : Prop :=
  rows.Pairwise (fun a b => b.uploaded_at ≤ a.uploaded_at)

instance (rows : List UploadRow) : Decidable (mostRecentFirst rows) := by
  unfold mostRecentFirst; infer_instance

/-- The number of history refreshes among the effects: the requests
`GET /api/upload/`. -/
def historyRefreshes (base : String) (effects : List Effect) : Nat :=
  ((requests effects).filter
    (fun req => decide (req.method = .GET) && decide (req.url = base ++ "/api/upload/"))).length

/-- A history of six uploads, the oldest first. -/
def sixUploads : List BatchSummary :=
  [⟨1, "a.csv", 1000⟩, ⟨2, "b.csv", 2000⟩, ⟨3, "c.csv", 3000⟩, ⟨4, "d.csv", 4000⟩,
   ⟨5, "e.csv", 5000⟩, ⟨6, "f.csv", 6000⟩]

/-- The report of the upload scenario: batch 42, ten units, averages 5.2,
101.3 and 22.1, six pumps and four valves. -/
def scenarioReport : ReportData :=
  { batch_id := 42,
    statistics :=
      { total_count := 10, average_flowrate := ⟨52, 1⟩, average_pressure := ⟨1013, 1⟩,
        average_temperature := ⟨221, 1⟩,
        type_distribution := ⟨[("Pump", 6), ("Valve", 4)], by decide⟩ } }

end Dashboard

/-- The `App` state once the effects of a `Dashboard` handler have reached it:
`App` passes `handleLogout` as the prop `onLogout`. -/
def App.afterDashboard (app : App) (effects : List Dashboard.Effect) : App :=
  effects.foldl (fun a e => match e with | .onLogout => handleLogout a | _ => a) app

/-! ## The requests as the backend sees them -/

/-- The value of a header of a request; `none` when the request has no such
header. -/
def Request.header (req : Request) (name : String) : Option String :=
  (req.headers.find? (fun h => h.1 == name)).map Prod.snd

/-- The request the browser issues when the Export PDF button opens its URL
with `window.open(url, '_blank')`: a navigation of a new tab, on which the page
sets no header. -/
def Dashboard.exportPdfRequest (base : String) (batchId : Option Nat) : Option Request :=
  (Dashboard.exportPdf base batchId).map fun url =>
    { method := .GET, url := url, headers := [], timeout := none, body := .empty }

/-! ## The mount effect of `App`, statement by statement -/

/-- What the functions of `App.jsx` do, one effect a statement. -/
inductive AppEffect where
  | setDarkMode (value : Bool)
  /-- The call `document.documentElement.classList.add`. -/
  | classListAdd (name : String)
  | setAuthHeader (value : String)
  | setIsAuthenticated (value : Bool)
  /-- A call of `axios`. -/
  | request (req : Request)
  deriving DecidableEq, Repr

def App.step (app : App) : AppEffect → App
  | .setDarkMode value => { app with darkMode := value }
  | .classListAdd name => if name = "dark" then { app with darkClass := true } else app
  | .setAuthHeader value => { app with authHeader := value }
  | .setIsAuthenticated value => { app with isAuthenticated := value }
  | .request _ => app

def App.run (app : App) (effects : List AppEffect) : App :=
  effects.foldl App.step app

/-- The requests among the effects, in order. -/
def appRequests (effects : List AppEffect) : List Request :=
  effects.filterMap (fun e => match e with | .request req => some req | _ => none)

/-- The statements of the mount effect of `App`, given what localStorage holds. -/
def restoreEffects (prefersDark : Bool) (localStorage : Storage) : List AppEffect :=
  let savedTheme := getItem localStorage "theme"
  (if savedTheme = some "dark" ||
      ((match savedTheme with | some t => !truthy t | none => true) && prefersDark) then
    [.setDarkMode true, .classListAdd "dark"]
  else []) ++
  (match getItem localStorage "authHeader" with
   | some savedAuth =>
     if truthy savedAuth then [.setAuthHeader savedAuth, .setIsAuthenticated true] else []
   | none => [])

/-! ## The route table of `App` -/

/-- The three pages. -/
inductive View where
  | login
  | signup
  | dashboard
  deriving DecidableEq, Repr

/-- What a route renders: a page, or `<Navigate to=... replace />`. -/
inductive Element where
  | view (page : View)
  | navigate (target : String)
  deriving DecidableEq, Repr

/-- Modelled from the spec: the component `components/ProtectedRoute`, which
`App.jsx` imports and which is not among the sources.  The spec's route guard:
navigation to the protected view is gated; if unauthenticated, the resolved
destination is the login view. -/
def ProtectedRoute (isAuthenticated : Bool) (children : Element) : Element :=
  if isAuthenticated then children else .navigate "/login"

/-- The four `path` props of the route table. -/
inductive RoutePath where
  | login
  | signup
  | root
  | star
  deriving DecidableEq, Repr

/-- A matcher that compares a pathname with the three literal `path` props
character by character.  React Router agrees with it on every pathname that has
no percent escape, no capital letter and no trailing slash, such as `/nowhere`,
`/login` and `/`; it is an instance of the parameter `matchRoute` below. -/
def literalRoute (pathname : String) : RoutePath :=
  if pathname = "/login" then .login
  else if pathname = "/signup" then .signup
  else if pathname = "/" then .root
  else .star

/-- The element that `<Routes>` of `App` renders at a pathname.
`matchRoute` is the route that React Router picks for the pathname: its
matching (percent-decoding, letter case, trailing slashes, a literal `path`
before `*`) belongs to the library and is a parameter.  `protectedRoute` is the
imported component `ProtectedRoute`. -/
def Routes (matchRoute : String → RoutePath) (protectedRoute : Bool → Element → Element)
    (isAuthenticated : Bool) (pathname : String) : Element :=
  match matchRoute pathname with
  | .login => if isAuthenticated then .navigate "/" else .view .login
  | .signup => if isAuthenticated then .navigate "/" else .view .signup
  | .root => protectedRoute isAuthenticated (.view .dashboard)
  | .star => .navigate "/login"

/-- The page shown once the redirects from a pathname have been followed, at
most `fuel` elements being rendered. -/
def resolve (matchRoute : String → RoutePath) (protectedRoute : Bool → Element → Element)
    (isAuthenticated : Bool) : Nat → String → Option View
  | 0, _ => none
  | fuel + 1, pathname =>
    match Routes matchRoute protectedRoute isAuthenticated pathname with
    | .view page => some page
    | .navigate target => resolve matchRoute protectedRoute isAuthenticated fuel target

/-! ## The session as a state machine -/

/-- The events that change the session: the mount effect, a submission of the
login form (with `handleLoginSuccess` as its `onLoginSuccess`), a logout. -/
inductive SessionStep where
  | restore (prefersDark : Bool)
  | login (base : String) (form : Login.State) (net : NetResult Unit)
  | logout

def SessionStep.apply (app : App) : SessionStep → App
  | .restore prefersDark => ChemViz.restore prefersDark app
  | .login base form net => app.afterLogin (Login.handleLogin base true form net)
  | .logout => handleLogout app

/-- The session after a sequence of events, from the first render of `App`. -/
def sessionAfter (localStorage : Storage) (darkClass : Bool) (steps : List SessionStep) : App :=
  steps.foldl SessionStep.apply (App.initial localStorage darkClass)

/-- The session is consistent: it is authenticated exactly when it holds a
credential, and an authenticated session has its credential in localStorage. -/
def sessionConsistent (app : App) : Prop :=
  (app.isAuthenticated = true ↔ app.authHeader ≠ "") ∧
  (app.isAuthenticated = true → getItem app.localStorage "authHeader" = some app.authHeader)

/-- The request of a report succeeded: it got a reply with a 2xx status. -/
def succeeded {α : Type} (net : NetResult α) : Prop :=
  ∃ r, net = some r ∧ validateStatus r.status = true

/-! ## Lemmas on the primitives -/

theorem getItem_setItem (ls : Storage) (key value : String) :
    getItem (setItem ls key value) key = some value := by
  simp [getItem, setItem]

theorem getItem_removeItem (ls : Storage) (key : String) :
    getItem (removeItem ls key) key = none := by
  simp [getItem, removeItem, List.find?_eq_none]

theorem axiosSettle_ok {α : Type} (r : Reply α) (h : validateStatus r.status = true) :
    axiosSettle (some r) = .fulfilled r := by
  simp [axiosSettle, h]

theorem axiosSettle_bad {α : Type} (r : Reply α) (h : validateStatus r.status = false) :
    axiosSettle (some r) = .rejected (some r) := by
  simp [axiosSettle, h]

theorem axiosSettle_none {α : Type} : axiosSettle (none : NetResult α) = .rejected none := rfl

theorem btoa_alice : btoa ("alice" ++ ":" ++ "secret1") = some "YWxpY2U6c2VjcmV0MQ==" := by
  decide

/-- The effects of `handleLogin` once the form is filled in and `btoa` has
built the credential. -/
theorem handleLogin_issued {α : Type} (base : String) (cb : Bool) (st : Login.State)
    (net : NetResult α) (enc : String)
    (hu : truthy (jsTrim st.username) = true) (hp : truthy st.password = true)
    (henc : btoa (st.username ++ ":" ++ st.password) = some enc) :
    Login.handleLogin base cb st net =
      [.preventDefault, .setError "", .setLoading true,
       .request (Login.verificationGet base ("Basic " ++ enc))] ++
      (match axiosSettle net with
       | .fulfilled _ => Login.callOnLoginSuccess cb ("Basic " ++ enc) ++ [.navigate "/"]
       | .rejected response =>
         if errStatus response = some 401 then
           [.setError "Invalid username or password"]
         else Login.callOnLoginSuccess cb ("Basic " ++ enc) ++ [.navigate "/"]) ++
      [.setLoading false] := by
  simp only [Login.handleLogin, hu, hp, henc]
  cases axiosSettle net with
  | fulfilled r => simp
  | rejected response => by_cases h : errStatus response = some 401 <;> simp [h]

/-- When `handleLogin` issues a request, the form is filled in and `btoa` has
built the credential that the request carries. -/
theorem handleLogin_request {α : Type} (base : String) (cb : Bool) (st : Login.State)
    (net : NetResult α) (req : Request)
    (h : req ∈ Login.requests (Login.handleLogin base cb st net)) :
    truthy (jsTrim st.username) = true ∧ truthy st.password = true ∧
    ∃ enc, btoa (st.username ++ ":" ++ st.password) = some enc ∧
      req = Login.verificationGet base ("Basic " ++ enc) := by
  cases hu : truthy (jsTrim st.username) with
  | false => simp [Login.handleLogin, Login.requests, hu] at h
  | true =>
    cases hp : truthy st.password with
    | false => simp [Login.handleLogin, Login.requests, hu, hp] at h
    | true =>
      cases henc : btoa (st.username ++ ":" ++ st.password) with
      | none => simp [Login.handleLogin, Login.requests, hu, hp, henc] at h
      | some enc =>
        refine ⟨rfl, rfl, enc, rfl, ?_⟩
        rw [handleLogin_issued base cb st net enc hu hp henc] at h
        cases hs : axiosSettle net with
        | fulfilled r =>
          cases cb <;>
            simpa [Login.requests, Login.callOnLoginSuccess, hs] using h
        | rejected response =>
          by_cases h401 : errStatus response = some 401 <;> cases cb <;>
            simpa [Login.requests, Login.callOnLoginSuccess, hs, h401] using h

/-! ## The session gate at login -/

/-- C1: a login submission with a non-blank username and a non-empty password
whose verification GET (the request carrying the credential `auth`) returns a
2xx status, or fails with status 405, or fails without any reply, ends with the
session authenticated, with `auth` as the in-memory credential and with `auth`
under `authHeader` in localStorage.  The verification GET is issued exactly
when `btoa` has built the credential. -/
theorem C1_login_success_authenticates {α : Type} (base : String) (st : Login.State)
    (app : App) (net : NetResult α) (auth : String)
    (hu : truthy (jsTrim st.username) = true) (hp : truthy st.password = true)
    (hget : Login.requests (Login.handleLogin base true st net) =
      [Login.verificationGet base auth])
    (hnet : (∃ r, net = some r ∧ validateStatus r.status = true) ∨
      (∃ r, net = some r ∧ r.status = 405) ∨ net = none) :
    (app.afterLogin (Login.handleLogin base true st net)).isAuthenticated = true ∧
    (app.afterLogin (Login.handleLogin base true st net)).authHeader = auth ∧
    getItem (app.afterLogin (Login.handleLogin base true st net)).localStorage "authHeader"
      = some auth := by
  have hmem : Login.verificationGet base auth ∈
      Login.requests (Login.handleLogin base true st net) := by simp [hget]
  obtain ⟨_, _, enc, henc, hreq⟩ := handleLogin_request base true st net _ hmem
  have hauth : auth = "Basic " ++ enc := by
    simpa [Login.verificationGet] using hreq
  subst hauth
  rw [handleLogin_issued base true st net enc hu hp henc]
  rcases hnet with ⟨r, rfl, hr⟩ | ⟨r, rfl, hr⟩ | rfl
  · simp [axiosSettle_ok r hr, App.afterLogin, Login.callOnLoginSuccess, handleLoginSuccess,
      getItem_setItem]
  · have hv : validateStatus r.status = false := by simp [validateStatus, hr]
    simp [axiosSettle_bad r hv, errStatus, hr, App.afterLogin, Login.callOnLoginSuccess,
      handleLoginSuccess, getItem_setItem]
  · simp [axiosSettle_none, errStatus, App.afterLogin, Login.callOnLoginSuccess,
      handleLoginSuccess, getItem_setItem]

/-- C1 at `alice`, `secret1` and a request that gets no reply. -/
theorem C1_login_success_authenticates_witness :
    (let st : Login.State := ⟨"alice", "secret1", false, "", false⟩
     let app := App.initial [] false
     let run := Login.handleLogin "http://127.0.0.1:8000" true st (none : NetResult Unit)
     (app.afterLogin run).isAuthenticated = true ∧
     (app.afterLogin run).authHeader = "Basic YWxpY2U6c2VjcmV0MQ==" ∧
     getItem (app.afterLogin run).localStorage "authHeader"
       = some "Basic YWxpY2U6c2VjcmV0MQ==") :=
  C1_login_success_authenticates "http://127.0.0.1:8000" ⟨"alice", "secret1", false, "", false⟩
    (App.initial [] false) (none : NetResult Unit) "Basic YWxpY2U6c2VjcmV0MQ=="
    (by decide) (by decide) (by decide) (Or.inr (Or.inr rfl))

/-- C2: when the verification call of a login submission fails with status
401, `onLoginSuccess` is not invoked and nothing is navigated to, the session
(authentication flag, in-memory credential, localStorage) is left as it was,
and the form error is `Invalid username or password`. -/
theorem C2_login_401_rejected {α : Type} (base : String) (cb : Bool) (st : Login.State)
    (app : App) (r : Reply α) (auth : String)
    (hget : Login.requests (Login.handleLogin base cb st (some r)) =
      [Login.verificationGet base auth])
    (h401 : r.status = 401) :
    Login.successCalls (Login.handleLogin base cb st (some r)) = [] ∧
    Login.navigations (Login.handleLogin base cb st (some r)) = [] ∧
    app.afterLogin (Login.handleLogin base cb st (some r)) = app ∧
    (app.isAuthenticated = false → app.authHeader = "" →
      (app.afterLogin (Login.handleLogin base cb st (some r))).isAuthenticated = false ∧
      (app.afterLogin (Login.handleLogin base cb st (some r))).authHeader = "") ∧
    getItem (app.afterLogin (Login.handleLogin base cb st (some r))).localStorage "authHeader"
      = getItem app.localStorage "authHeader" ∧
    (st.run (Login.handleLogin base cb st (some r))).error = "Invalid username or password" := by
  have hmem : Login.verificationGet base auth ∈
      Login.requests (Login.handleLogin base cb st (some r)) := by simp [hget]
  obtain ⟨hu, hp, enc, henc, _⟩ := handleLogin_request base cb st (some r) _ hmem
  have hv : validateStatus r.status = false := by simp [validateStatus, h401]
  have hrun : Login.handleLogin base cb st (some r) =
      [.preventDefault, .setError "", .setLoading true,
       .request (Login.verificationGet base ("Basic " ++ enc)),
       .setError "Invalid username or password", .setLoading false] := by
    rw [handleLogin_issued base cb st (some r) enc hu hp henc]
    simp [axiosSettle_bad r hv, errStatus, h401]
  have happ : app.afterLogin (Login.handleLogin base cb st (some r)) = app := by
    rw [hrun]; rfl
  refine ⟨?_, ?_, happ, ?_, ?_, ?_⟩
  · rw [hrun]; rfl
  · rw [hrun]; rfl
  · intro h1 h2; rw [happ]; exact ⟨h1, h2⟩
  · rw [happ]
  · rw [hrun]; rfl

/-- C2 at `alice`, `wrong` and a reply of status 401. -/
theorem C2_login_401_rejected_witness :
    (let st : Login.State := ⟨"alice", "wrong", false, "", false⟩
     let app := App.initial [] false
     let run := Login.handleLogin "http://127.0.0.1:8000" true st (some ⟨401, ()⟩)
     Login.successCalls run = [] ∧ Login.navigations run = [] ∧ app.afterLogin run = app ∧
     (app.isAuthenticated = false → app.authHeader = "" →
       (app.afterLogin run).isAuthenticated = false ∧ (app.afterLogin run).authHeader = "") ∧
     getItem (app.afterLogin run).localStorage "authHeader" = getItem app.localStorage "authHeader" ∧
     (st.run run).error = "Invalid username or password") :=
  C2_login_401_rejected "http://127.0.0.1:8000" true ⟨"alice", "wrong", false, "", false⟩
    (App.initial [] false) ⟨401, ()⟩ "Basic YWxpY2U6d3Jvbmc=" (by decide) rfl

/-- A batch selection that fails with status 401 calls `onLogout`, which leaves
the session unauthenticated, without credential in memory or in localStorage. -/
theorem handleBatchSelect_401_logs_out (base authHeader : String) (id : Nat)
    (r : Reply ReportData) (app : App) (h401 : r.status = 401) :
    Dashboard.logoutCalls (Dashboard.handleBatchSelect base authHeader id (some r)) = 1 ∧
    app.afterDashboard (Dashboard.handleBatchSelect base authHeader id (some r))
      = handleLogout app := by
  have hv : validateStatus r.status = false := by simp [validateStatus, h401]
  simp [Dashboard.handleBatchSelect, axiosSettle_bad r hv, errStatus, h401,
    Dashboard.logoutCalls, App.afterDashboard]

/-- An upload that fails with status 401 calls `onLogout`. -/
theorem handleFileUpload_401_logs_out (base authHeader : String) (f : File)
    (r : Reply ReportData) (history : NetResult (List BatchSummary)) (app : App)
    (h401 : r.status = 401) :
    Dashboard.logoutCalls
      (Dashboard.handleFileUpload base authHeader (some f) (some r) history) = 1 ∧
    app.afterDashboard (Dashboard.handleFileUpload base authHeader (some f) (some r) history)
      = handleLogout app := by
  have hv : validateStatus r.status = false := by simp [validateStatus, h401]
  simp [Dashboard.handleFileUpload, axiosSettle_bad r hv, errStatus, h401,
    Dashboard.logoutCalls, App.afterDashboard]

/-- The session after `handleLogout`. -/
theorem handleLogout_clears (app : App) :
    (handleLogout app).isAuthenticated = false ∧ (handleLogout app).authHeader = "" ∧
    getItem (handleLogout app).localStorage "authHeader" = none := by
  simp [handleLogout, getItem_removeItem]

/-- C3, at a reply of status 401 to each of the three protected requests of the
dashboard, in a session logged in as `alice`: the batch selection and the
upload call `onLogout` and the session ends unauthenticated with its credential
cleared, but `fetchHistory` only logs the failure, never calls `onLogout`, and
the session stays authenticated with the credential in memory and in
localStorage. -/
theorem C3_fetchHistory_401_no_logout :
    (let auth := "Basic YWxpY2U6c2VjcmV0MQ=="
     let base := "http://127.0.0.1:8000"
     let app := handleLoginSuccess auth (App.initial [] false)
     let select := Dashboard.handleBatchSelect base auth 7
       (some ⟨401, ⟨0, ⟨0, ⟨0, 0⟩, ⟨0, 0⟩, ⟨0, 0⟩, ⟨[], List.nodup_nil⟩⟩⟩⟩)
     let upload := Dashboard.handleFileUpload base auth (some ⟨"equipment.csv", ""⟩)
       (some ⟨401, ⟨0, ⟨0, ⟨0, 0⟩, ⟨0, 0⟩, ⟨0, 0⟩, ⟨[], List.nodup_nil⟩⟩⟩⟩) none
     let history := Dashboard.fetchHistory base auth (some ⟨401, []⟩)
     (Dashboard.logoutCalls select = 1 ∧ (app.afterDashboard select).isAuthenticated = false ∧
       (app.afterDashboard select).authHeader = "" ∧
       getItem (app.afterDashboard select).localStorage "authHeader" = none) ∧
     (Dashboard.logoutCalls upload = 1 ∧ (app.afterDashboard upload).isAuthenticated = false ∧
       (app.afterDashboard upload).authHeader = "" ∧
       getItem (app.afterDashboard upload).localStorage "authHeader" = none) ∧
     (history = [.request (Dashboard.historyGet base auth),
                 .consoleError "Failed to fetch history"] ∧
       Dashboard.logoutCalls history = 0 ∧
       (app.afterDashboard history).isAuthenticated = true ∧
       (app.afterDashboard history).authHeader = auth ∧
       getItem (app.afterDashboard history).localStorage "authHeader" = some auth)) := by
  decide

/-- C4: the credential that `handleLogin` sends, hands to `onLoginSuccess` and
so persists is `Basic ` followed by `btoa` of the username as typed, a colon and
the password: it depends on nothing but these two inputs.  A leading blank of
the username is part of it.  For `alice` and `secret1` with a reply of status 200
the persisted credential is `Basic YWxpY2U6c2VjcmV0MQ==`. -/
theorem C4_credential_is_basic_base64 :
    (∀ (α : Type) (base : String) (cb : Bool) (st : Login.State) (net : NetResult α)
        (auth : String),
      (Login.verificationGet base auth ∈ Login.requests (Login.handleLogin base cb st net) ∨
        auth ∈ Login.successCalls (Login.handleLogin base cb st net)) →
      ∃ enc, btoa (st.username ++ ":" ++ st.password) = some enc ∧ auth = "Basic " ++ enc) ∧
    (∀ (app : App) (base : String) (showPassword : Bool) (error : String) (loading : Bool)
        (data : Unit),
      getItem (app.afterLogin (Login.handleLogin base true
        ⟨"alice", "secret1", showPassword, error, loading⟩ (some ⟨200, data⟩))).localStorage
        "authHeader" = some "Basic YWxpY2U6c2VjcmV0MQ==") ∧
    btoa (" alice" ++ ":" ++ "secret1") = some "IGFsaWNlOnNlY3JldDE=" := by
  refine ⟨?_, ?_, by decide⟩
  · intro α base cb st net auth h
    rcases h with h | h
    · obtain ⟨_, _, enc, henc, hreq⟩ := handleLogin_request base cb st net _ h
      exact ⟨enc, henc, by simpa [Login.verificationGet] using hreq⟩
    · cases hu : truthy (jsTrim st.username) with
      | false => simp [Login.handleLogin, Login.successCalls, hu] at h
      | true =>
        cases hp : truthy st.password with
        | false => simp [Login.handleLogin, Login.successCalls, hu, hp] at h
        | true =>
          cases henc : btoa (st.username ++ ":" ++ st.password) with
          | none => simp [Login.handleLogin, Login.successCalls, hu, hp, henc] at h
          | some enc =>
            refine ⟨enc, rfl, ?_⟩
            rw [handleLogin_issued base cb st net enc hu hp henc] at h
            cases hs : axiosSettle net with
            | fulfilled r =>
              cases cb <;> simp [Login.successCalls, Login.callOnLoginSuccess, hs] at h
              exact h
            | rejected response =>
              by_cases h401 : errStatus response = some 401 <;> cases cb <;>
                simp [Login.successCalls, Login.callOnLoginSuccess, hs, h401] at h
              exact h
  · intro app base showPassword error loading data
    have hrun := handleLogin_issued base true ⟨"alice", "secret1", showPassword, error, loading⟩
      (some (⟨200, data⟩ : Reply Unit)) "YWxpY2U6c2VjcmV0MQ=="
      (by show truthy (jsTrim "alice") = true; decide)
      (by show truthy "secret1" = true; decide) btoa_alice
    rw [hrun]
    simp [axiosSettle, validateStatus, App.afterLogin, Login.callOnLoginSuccess,
      handleLoginSuccess, getItem_setItem]

/-- C4 at `alice`, `secret1` and a reply of status 200: the credential handed to
`onLoginSuccess` is the one stated. -/
theorem C4_credential_is_basic_base64_witness :
    ∃ enc, btoa ("alice" ++ ":" ++ "secret1") = some enc ∧
      "Basic YWxpY2U6c2VjcmV0MQ==" = "Basic " ++ enc :=
  C4_credential_is_basic_base64.1 Unit "http://127.0.0.1:8000" true
    ⟨"alice", "secret1", false, "", false⟩ (some ⟨200, ()⟩) "Basic YWxpY2U6c2VjcmV0MQ=="
    (Or.inr (by decide))

/-! ## Signup: validation in the browser -/

/-- C5: a signup submission whose password differs from its confirmation, or
whose password has fewer than 6 characters (UTF-16 code units, as `length`
counts them), issues no request and schedules no navigation; its error is
`Passwords do not match` when the two differ and
`Password must be at least 6 characters` otherwise, which is not empty; its
success message is empty and `loading` ends false. -/
theorem C5_signup_rejected_in_browser (base : String) (st : Signup.State)
    (net : NetResult Signup.RegisterData)
    (h : st.password ≠ st.confirmPassword ∨ jsLength st.password < 6) :
    Signup.requests (Signup.handleSignup base st net) = [] ∧
    Signup.scheduled (Signup.handleSignup base st net) = [] ∧
    (st.run (Signup.handleSignup base st net)).error =
      (if st.password ≠ st.confirmPassword then "Passwords do not match"
       else "Password must be at least 6 characters") ∧
    (st.run (Signup.handleSignup base st net)).error ≠ "" ∧
    (st.run (Signup.handleSignup base st net)).success = "" ∧
    (st.run (Signup.handleSignup base st net)).loading = false := by
  by_cases hne : st.password = st.confirmPassword
  · have hlen : jsLength st.password < 6 := by
      rcases h with h | h
      · exact absurd hne h
      · exact h
    have hlen2 : jsLength st.confirmPassword < 6 := hne ▸ hlen
    simp [Signup.handleSignup, hne, hlen2, Signup.requests, Signup.scheduled,
      Signup.State.run, Signup.State.step]
  · simp [Signup.handleSignup, hne, Signup.requests, Signup.scheduled,
      Signup.State.run, Signup.State.step]

/-- C5 at a password of five characters, confirmed. -/
theorem C5_signup_rejected_in_browser_witness :
    (let st : Signup.State := ⟨"bob", "bob@example.org", "12345", "12345", false, "", false, ""⟩
     let run := Signup.handleSignup "http://127.0.0.1:8000" st (some ⟨201, ⟨none⟩⟩)
     Signup.requests run = [] ∧ Signup.scheduled run = [] ∧
     (st.run run).error = (if st.password ≠ st.confirmPassword then "Passwords do not match"
       else "Password must be at least 6 characters") ∧
     (st.run run).error ≠ "" ∧ (st.run run).success = "" ∧ (st.run run).loading = false) :=
  C5_signup_rejected_in_browser "http://127.0.0.1:8000"
    ⟨"bob", "bob@example.org", "12345", "12345", false, "", false, ""⟩ (some ⟨201, ⟨none⟩⟩)
    (Or.inr (by decide))

/-! ## The report view -/

/-- C6, as stated, fails: after a history reply of six uploads, the oldest
first, the Recent Uploads list shows six entries, the oldest first. -/
theorem C6_six_uploads_shown :
    ¬ ((Dashboard.recentUploadRows (Dashboard.State.initial.run
          (Dashboard.fetchHistory "http://127.0.0.1:8000" "Basic YWxpY2U6c2VjcmV0MQ=="
            (some ⟨200, Dashboard.sixUploads⟩)))).length ≤ 5) ∧
    ¬ Dashboard.mostRecentFirst (Dashboard.recentUploadRows (Dashboard.State.initial.run
          (Dashboard.fetchHistory "http://127.0.0.1:8000" "Basic YWxpY2U6c2VjcmV0MQ=="
            (some ⟨200, Dashboard.sixUploads⟩)))) := by
  decide

/-- C6, amended: after a successful history reply the Recent Uploads list
shows the entries of the reply, all of them and in the order of the reply (none
while the card is collapsed); so it has at most 5 entries when the reply has at
most 5, and is ordered most recent first when the reply is. -/
theorem C6_recent_uploads_mirror_reply (base authHeader : String) (st : Dashboard.State)
    (r : Reply (List BatchSummary))
    (hauth : truthy authHeader = true) (hok : validateStatus r.status = true) :
    (st.run (Dashboard.fetchHistory base authHeader (some r))).recentUploads = r.data ∧
    (Dashboard.recentUploadRows (st.run (Dashboard.fetchHistory base authHeader (some r)))).map
        (fun row => (⟨row.key, row.filename, row.uploaded_at⟩ : BatchSummary))
      = (if st.isRecentUploadsOpen then r.data else []) ∧
    (r.data.length ≤ 5 →
      (Dashboard.recentUploadRows
        (st.run (Dashboard.fetchHistory base authHeader (some r)))).length ≤ 5) ∧
    (r.data.Pairwise (fun a b => b.uploaded_at ≤ a.uploaded_at) →
      Dashboard.mostRecentFirst (Dashboard.recentUploadRows
        (st.run (Dashboard.fetchHistory base authHeader (some r))))) := by
  have hrun : st.run (Dashboard.fetchHistory base authHeader (some r))
      = { st with recentUploads := r.data } := by
    simp [Dashboard.fetchHistory, Dashboard.fetchHistoryStart, Dashboard.fetchHistorySettle,
      hauth, axiosSettle_ok r hok, Dashboard.State.run, Dashboard.State.step]
  rw [hrun]
  refine ⟨rfl, ?_, ?_, ?_⟩
  · cases hopen : st.isRecentUploadsOpen <;>
      simp [Dashboard.recentUploadRows, hopen, Function.comp_def]
  · intro hlen
    cases hopen : st.isRecentUploadsOpen <;> simp [Dashboard.recentUploadRows, hopen, hlen]
  · intro hsorted
    cases hopen : st.isRecentUploadsOpen
    · simp [Dashboard.recentUploadRows, Dashboard.mostRecentFirst, hopen]
    · simp only [Dashboard.recentUploadRows, Dashboard.mostRecentFirst, hopen, if_true]
      rw [List.pairwise_map]
      exact hsorted

/-- C6, amended, at a reply of two uploads, the most recent first. -/
theorem C6_recent_uploads_mirror_reply_witness :
    (let r : Reply (List BatchSummary) := ⟨200, [⟨2, "b.csv", 2000⟩, ⟨1, "a.csv", 1000⟩]⟩
     let st := Dashboard.State.initial.run
       (Dashboard.fetchHistory "http://127.0.0.1:8000" "Basic YWxpY2U6c2VjcmV0MQ==" (some r))
     st.recentUploads = r.data ∧
     (Dashboard.recentUploadRows st).map
         (fun row => (⟨row.key, row.filename, row.uploaded_at⟩ : BatchSummary))
       = (if Dashboard.State.initial.isRecentUploadsOpen then r.data else []) ∧
     (r.data.length ≤ 5 → (Dashboard.recentUploadRows st).length ≤ 5) ∧
     (r.data.Pairwise (fun a b => b.uploaded_at ≤ a.uploaded_at) →
       Dashboard.mostRecentFirst (Dashboard.recentUploadRows st))) :=
  C6_recent_uploads_mirror_reply "http://127.0.0.1:8000" "Basic YWxpY2U6c2VjcmV0MQ=="
    Dashboard.State.initial ⟨200, [⟨2, "b.csv", 2000⟩, ⟨1, "a.csv", 1000⟩]⟩
    (by decide) (by decide)

/-- An upload with a file selected issues exactly one history request when the
POST succeeds and the credential is not empty, none when the POST succeeds and
the credential is empty, and none when the POST fails, with whatever status or
without reply. -/
theorem handleFileUpload_history_refreshes (base authHeader : String) (f : File)
    (net : NetResult ReportData) (history : NetResult (List BatchSummary)) :
    ((∃ r, net = some r ∧ validateStatus r.status = true) → truthy authHeader = true →
      Dashboard.historyRefreshes base
        (Dashboard.handleFileUpload base authHeader (some f) net history) = 1) ∧
    ((∃ r, net = some r ∧ validateStatus r.status = true) → truthy authHeader = false →
      Dashboard.historyRefreshes base
        (Dashboard.handleFileUpload base authHeader (some f) net history) = 0) ∧
    ((∀ r, net = some r → validateStatus r.status = false) →
      Dashboard.historyRefreshes base
        (Dashboard.handleFileUpload base authHeader (some f) net history) = 0) := by
  refine ⟨?_, ?_, ?_⟩
  · rintro ⟨r, rfl, hok⟩ hauth
    cases hh : axiosSettle history <;>
      simp [Dashboard.handleFileUpload, axiosSettle_ok r hok, Dashboard.fetchHistoryStart,
        Dashboard.fetchHistorySettle, hauth, hh, Dashboard.historyRefreshes, Dashboard.requests,
        Dashboard.uploadPost, Dashboard.historyGet]
  · rintro ⟨r, rfl, hok⟩ hauth
    simp [Dashboard.handleFileUpload, axiosSettle_ok r hok, Dashboard.fetchHistoryStart,
      Dashboard.fetchHistorySettle, hauth, Dashboard.historyRefreshes, Dashboard.requests,
      Dashboard.uploadPost]
  · intro hfail
    cases net with
    | none =>
      simp [Dashboard.handleFileUpload, axiosSettle_none, errStatus,
        Dashboard.historyRefreshes, Dashboard.requests, Dashboard.uploadPost]
    | some r =>
      have hv := hfail r rfl
      by_cases h401 : r.status = 401 <;>
        simp [Dashboard.handleFileUpload, axiosSettle_bad r hv, errStatus, h401,
          Dashboard.historyRefreshes, Dashboard.requests, Dashboard.uploadPost]

/-- The effects of a batch selection whose request succeeds. -/
theorem handleBatchSelect_ok (base authHeader : String) (id : Nat) (r : Reply ReportData)
    (hok : validateStatus r.status = true) :
    Dashboard.handleBatchSelect base authHeader id (some r) =
      [.setLoading true, .setError "", .request (Dashboard.batchGet base authHeader id),
       .setStats r.data.statistics, .setBatchId r.data.batch_id, .scrollTo 400,
       .setLoading false] := by
  simp [Dashboard.handleBatchSelect, axiosSettle_ok r hok]

/-- The effects of an upload whose request succeeds. -/
theorem handleFileUpload_ok (base authHeader : String) (f : File) (r : Reply ReportData)
    (history : NetResult (List BatchSummary)) (hok : validateStatus r.status = true) :
    Dashboard.handleFileUpload base authHeader (some f) (some r) history =
      [.setLoading true, .setError "", .request (Dashboard.uploadPost base authHeader f),
       .setStats r.data.statistics, .setBatchId r.data.batch_id] ++
      Dashboard.fetchHistoryStart base authHeader ++ [.setLoading false] ++
      Dashboard.fetchHistorySettle authHeader history := by
  simp [Dashboard.handleFileUpload, axiosSettle_ok r hok]

/-- The effects of `fetchHistory` set neither the report nor the active batch. -/
theorem fetchHistory_keeps_report (base authHeader : String)
    (history : NetResult (List BatchSummary)) (st : Dashboard.State) :
    (st.run (Dashboard.fetchHistoryStart base authHeader ++ [.setLoading false] ++
      Dashboard.fetchHistorySettle authHeader history)).stats = st.stats ∧
    (st.run (Dashboard.fetchHistoryStart base authHeader ++ [.setLoading false] ++
      Dashboard.fetchHistorySettle authHeader history)).batchId = st.batchId := by
  cases hauth : truthy authHeader <;> cases hh : axiosSettle history <;>
    simp [Dashboard.fetchHistoryStart, Dashboard.fetchHistorySettle, hauth, hh,
      Dashboard.State.run, Dashboard.State.step]

/-- C8: after a batch selection or an upload that succeeds with the reply
`batch_id`, `statistics`, the report of the view is the returned statistics,
whatever report was shown before, the active batch is the returned `batch_id`,
and the four cards show `total_count`, `average_flowrate`, `average_pressure`
and `average_temperature` of the returned statistics.  For the report of the
upload scenario the cards show 10, 5.2, 101.3 and 22.1 and the batch is 42. -/
theorem C8_report_replaced_wholesale (base authHeader : String) (st : Dashboard.State)
    (id : Nat) (f : File) (r : Reply ReportData) (history : NetResult (List BatchSummary))
    (hok : validateStatus r.status = true) :
    ((st.run (Dashboard.handleBatchSelect base authHeader id (some r))).stats
        = some r.data.statistics ∧
      (st.run (Dashboard.handleBatchSelect base authHeader id (some r))).batchId
        = some r.data.batch_id ∧
      Dashboard.statCards (st.run (Dashboard.handleBatchSelect base authHeader id (some r)))
        = some ⟨r.data.statistics.total_count, r.data.statistics.average_flowrate,
            r.data.statistics.average_pressure, r.data.statistics.average_temperature⟩) ∧
    ((st.run (Dashboard.handleFileUpload base authHeader (some f) (some r) history)).stats
        = some r.data.statistics ∧
      (st.run (Dashboard.handleFileUpload base authHeader (some f) (some r) history)).batchId
        = some r.data.batch_id ∧
      Dashboard.statCards
          (st.run (Dashboard.handleFileUpload base authHeader (some f) (some r) history))
        = some ⟨r.data.statistics.total_count, r.data.statistics.average_flowrate,
            r.data.statistics.average_pressure, r.data.statistics.average_temperature⟩) ∧
    (r.data = Dashboard.scenarioReport →
      Dashboard.statCards
          (st.run (Dashboard.handleFileUpload base authHeader (some f) (some r) history))
        = some ⟨10, ⟨52, 1⟩, ⟨1013, 1⟩, ⟨221, 1⟩⟩ ∧
      (st.run (Dashboard.handleFileUpload base authHeader (some f) (some r) history)).batchId
        = some 42) := by
  have hsel : (st.run (Dashboard.handleBatchSelect base authHeader id (some r))).stats
        = some r.data.statistics ∧
      (st.run (Dashboard.handleBatchSelect base authHeader id (some r))).batchId
        = some r.data.batch_id := by
    rw [handleBatchSelect_ok base authHeader id r hok]
    exact ⟨rfl, rfl⟩
  have hup : (st.run (Dashboard.handleFileUpload base authHeader (some f) (some r) history)).stats
        = some r.data.statistics ∧
      (st.run (Dashboard.handleFileUpload base authHeader (some f) (some r) history)).batchId
        = some r.data.batch_id := by
    rw [handleFileUpload_ok base authHeader f r history hok]
    have h := fetchHistory_keeps_report base authHeader history
      (st.run [.setLoading true, .setError "", .request (Dashboard.uploadPost base authHeader f),
        .setStats r.data.statistics, .setBatchId r.data.batch_id])
    simp only [Dashboard.State.run, List.foldl_append, List.append_assoc] at h ⊢
    rw [h.1, h.2]
    exact ⟨rfl, rfl⟩
  refine ⟨⟨hsel.1, hsel.2, ?_⟩, ⟨hup.1, hup.2, ?_⟩, ?_⟩
  · simp [Dashboard.statCards, hsel.1]
  · simp [Dashboard.statCards, hup.1]
  · intro hdata
    refine ⟨?_, ?_⟩
    · simp [Dashboard.statCards, hup.1, hdata, Dashboard.scenarioReport]
    · simp [hup.2, hdata, Dashboard.scenarioReport]

/-- C8 at the upload scenario: `equipment.csv`, the reply of status 200 with
the scenario report, over a view that showed another report. -/
theorem C8_report_replaced_wholesale_witness :
    (let st : Dashboard.State :=
       { Dashboard.State.initial with
         stats := some ⟨1, ⟨0, 0⟩, ⟨0, 0⟩, ⟨0, 0⟩, ⟨[("Reactor", 1)], by decide⟩⟩,
         batchId := some 7 }
     let run := Dashboard.handleFileUpload "http://127.0.0.1:8000" "Basic YWxpY2U6c2VjcmV0MQ=="
       (some ⟨"equipment.csv", ""⟩) (some ⟨200, Dashboard.scenarioReport⟩) none
     Dashboard.statCards (st.run run) = some ⟨10, ⟨52, 1⟩, ⟨1013, 1⟩, ⟨221, 1⟩⟩ ∧
     (st.run run).batchId = some 42) :=
  (C8_report_replaced_wholesale "http://127.0.0.1:8000" "Basic YWxpY2U6c2VjcmV0MQ=="
    { Dashboard.State.initial with
      stats := some ⟨1, ⟨0, 0⟩, ⟨0, 0⟩, ⟨0, 0⟩, ⟨[("Reactor", 1)], by decide⟩⟩,
      batchId := some 7 }
    7 ⟨"equipment.csv", ""⟩ ⟨200, Dashboard.scenarioReport⟩ none (by decide)).2.2 rfl

/-- In a list of properties with distinct keys, looking up the key of the
entry at an index finds that entry. -/
theorem find_key_of_getElem (l : List (String × Nat)) (hl : (l.map Prod.fst).Nodup) (i : Nat)
    (e : String × Nat) (h : l[i]? = some e) :
    l.find? (fun x => x.1 == e.1) = some e := by
  induction l generalizing i with
  | nil => simp at h
  | cons a rest ih =>
    rw [List.map_cons, List.nodup_cons] at hl
    cases i with
    | zero =>
      simp only [List.getElem?_cons_zero, Option.some.injEq] at h
      subst h
      simp
    | succ j =>
      simp only [List.getElem?_cons_succ] at h
      have hmem : e ∈ rest := List.getElem?_mem h
      have hne : a.1 ≠ e.1 := by
        intro heq
        exact hl.1 (heq ▸ List.mem_map_of_mem Prod.fst hmem)
      rw [List.find?_cons_of_neg]
      · exact ih hl.2 j h
      · simpa using hne

/-- C9: the bar chart and the pie chart get the same labels and the same data:
the keys and the values of `type_distribution`, as many as the mapping has
entries, and the count at an index is the one the mapping gives the label at
that index.  For six pumps and four valves both get the labels `Pump`, `Valve`
and the data 6, 4. -/
theorem C9_charts_share_distribution (stats : Statistics) :
    (Dashboard.barData stats).labels = (Dashboard.pieData stats).labels ∧
    (Dashboard.barData stats).data = (Dashboard.pieData stats).data ∧
    (Dashboard.barData stats).labels = objectKeys stats.type_distribution ∧
    (Dashboard.barData stats).data = objectValues stats.type_distribution ∧
    (Dashboard.barData stats).labels.length = stats.type_distribution.val.length ∧
    (Dashboard.barData stats).data.length = stats.type_distribution.val.length ∧
    (∀ i, i < stats.type_distribution.val.length →
      ∃ label count, (Dashboard.barData stats).labels[i]? = some label ∧
        (Dashboard.barData stats).data[i]? = some count ∧
        objectGet stats.type_distribution label = some count) ∧
    (stats.type_distribution.val = [("Pump", 6), ("Valve", 4)] →
      (Dashboard.barData stats).labels = ["Pump", "Valve"] ∧
      (Dashboard.barData stats).data = [6, 4] ∧
      (Dashboard.pieData stats).labels = ["Pump", "Valve"] ∧
      (Dashboard.pieData stats).data = [6, 4]) := by
  refine ⟨rfl, rfl, rfl, rfl, ?_, ?_, ?_, ?_⟩
  · simp [Dashboard.barData, objectKeys]
  · simp [Dashboard.barData, objectValues]
  · intro i hi
    have hget : stats.type_distribution.val[i]? = some stats.type_distribution.val[i] :=
      List.getElem?_eq_getElem hi
    refine ⟨stats.type_distribution.val[i].1, stats.type_distribution.val[i].2, ?_, ?_, ?_⟩
    · simp [Dashboard.barData, objectKeys, List.getElem?_map, hget]
    · simp [Dashboard.barData, objectValues, List.getElem?_map, hget]
    · have hfind := find_key_of_getElem stats.type_distribution.val
        stats.type_distribution.property i _ hget
      simp [objectGet, hfind]
  · intro h
    simp [Dashboard.barData, Dashboard.pieData, objectKeys, objectValues, h]

/-- C9 at the report of the upload scenario. -/
theorem C9_charts_share_distribution_witness :
    (Dashboard.barData Dashboard.scenarioReport.statistics).labels = ["Pump", "Valve"] ∧
    (Dashboard.barData Dashboard.scenarioReport.statistics).data = [6, 4] ∧
    (Dashboard.pieData Dashboard.scenarioReport.statistics).labels = ["Pump", "Valve"] ∧
    (Dashboard.pieData Dashboard.scenarioReport.statistics).data = [6, 4] :=
  (C9_charts_share_distribution Dashboard.scenarioReport.statistics).2.2.2.2.2.2.2 rfl

/-- C10: a batch selection, or an upload with a file selected, whose request
fails with a status other than 401 or without reply never calls `onLogout`, so
the session is as it was; the report and the active batch of the view are as
they were; and the error is `Failed to load report.` for the selection and
`Failed to upload file. Make sure Server is running!` for the upload. -/
theorem C10_failure_keeps_report (base authHeader : String) (st : Dashboard.State) (app : App)
    (id : Nat) (f : File) (net : NetResult ReportData) (history : NetResult (List BatchSummary))
    (hfail : ∀ r, net = some r → validateStatus r.status = false ∧ r.status ≠ 401) :
    (Dashboard.logoutCalls (Dashboard.handleBatchSelect base authHeader id net) = 0 ∧
      app.afterDashboard (Dashboard.handleBatchSelect base authHeader id net) = app ∧
      (st.run (Dashboard.handleBatchSelect base authHeader id net)).stats = st.stats ∧
      (st.run (Dashboard.handleBatchSelect base authHeader id net)).batchId = st.batchId ∧
      (st.run (Dashboard.handleBatchSelect base authHeader id net)).error
        = "Failed to load report.") ∧
    (Dashboard.logoutCalls (Dashboard.handleFileUpload base authHeader (some f) net history) = 0 ∧
      app.afterDashboard (Dashboard.handleFileUpload base authHeader (some f) net history)
        = app ∧
      (st.run (Dashboard.handleFileUpload base authHeader (some f) net history)).stats
        = st.stats ∧
      (st.run (Dashboard.handleFileUpload base authHeader (some f) net history)).batchId
        = st.batchId ∧
      (st.run (Dashboard.handleFileUpload base authHeader (some f) net history)).error
        = "Failed to upload file. Make sure Server is running!") := by
  have hsel : Dashboard.handleBatchSelect base authHeader id net =
      [.setLoading true, .setError "", .request (Dashboard.batchGet base authHeader id),
       .setError "Failed to load report.", .setLoading false] := by
    cases net with
    | none => simp [Dashboard.handleBatchSelect, axiosSettle_none, errStatus]
    | some r =>
      obtain ⟨hv, h401⟩ := hfail r rfl
      simp [Dashboard.handleBatchSelect, axiosSettle_bad r hv, errStatus, h401]
  have hup : Dashboard.handleFileUpload base authHeader (some f) net history =
      [.setLoading true, .setError "", .request (Dashboard.uploadPost base authHeader f),
       .setError "Failed to upload file. Make sure Server is running!", .consoleError "err",
       .setLoading false] := by
    cases net with
    | none => simp [Dashboard.handleFileUpload, axiosSettle_none, errStatus]
    | some r =>
      obtain ⟨hv, h401⟩ := hfail r rfl
      simp [Dashboard.handleFileUpload, axiosSettle_bad r hv, errStatus, h401]
  rw [hsel, hup]
  exact ⟨⟨by simp [Dashboard.logoutCalls], rfl, rfl, rfl, rfl⟩,
    ⟨by simp [Dashboard.logoutCalls], rfl, rfl, rfl, rfl⟩⟩

/-- C10 at a reply of status 500, over a view that shows the scenario report in
a session logged in as `alice`. -/
theorem C10_failure_keeps_report_witness :
    (let auth := "Basic YWxpY2U6c2VjcmV0MQ=="
     let base := "http://127.0.0.1:8000"
     let app := handleLoginSuccess auth (App.initial [] false)
     let st : Dashboard.State :=
       { Dashboard.State.initial with
         stats := some Dashboard.scenarioReport.statistics, batchId := some 42 }
     let select := Dashboard.handleBatchSelect base auth 7 (some ⟨500, Dashboard.scenarioReport⟩)
     let upload := Dashboard.handleFileUpload base auth (some ⟨"equipment.csv", ""⟩)
       (some ⟨500, Dashboard.scenarioReport⟩) none
     (Dashboard.logoutCalls select = 0 ∧ app.afterDashboard select = app ∧
       (st.run select).stats = st.stats ∧ (st.run select).batchId = st.batchId ∧
       (st.run select).error = "Failed to load report.") ∧
     (Dashboard.logoutCalls upload = 0 ∧ app.afterDashboard upload = app ∧
       (st.run upload).stats = st.stats ∧ (st.run upload).batchId = st.batchId ∧
       (st.run upload).error = "Failed to upload file. Make sure Server is running!")) :=
  C10_failure_keeps_report "http://127.0.0.1:8000" "Basic YWxpY2U6c2VjcmV0MQ=="
    { Dashboard.State.initial with
      stats := some Dashboard.scenarioReport.statistics, batchId := some 42 }
    (handleLoginSuccess "Basic YWxpY2U6c2VjcmV0MQ==" (App.initial [] false))
    7 ⟨"equipment.csv", ""⟩ (some ⟨500, Dashboard.scenarioReport⟩) none
    (fun r h => by cases h; exact ⟨by decide, by decide⟩)

/-! ## Session expiry, routes, restore and logout -/

/-- C11, as stated, fails: a batch selection that returns 401 sets the generic
error `Failed to load report.`, and a history fetch that returns 401 sets no
error at all; neither sets the session-expired message. -/
theorem C11_401_without_session_expired_message :
    (Dashboard.State.initial.run
        (Dashboard.handleBatchSelect "http://127.0.0.1:8000" "Basic YWxpY2U6c2VjcmV0MQ==" 7
          (some ⟨401, Dashboard.scenarioReport⟩))).error = "Failed to load report." ∧
    (Dashboard.State.initial.run
        (Dashboard.fetchHistory "http://127.0.0.1:8000" "Basic YWxpY2U6c2VjcmV0MQ=="
          (some ⟨401, []⟩))).error = "" ∧
    ¬ ((Dashboard.State.initial.run
        (Dashboard.handleBatchSelect "http://127.0.0.1:8000" "Basic YWxpY2U6c2VjcmV0MQ==" 7
          (some ⟨401, Dashboard.scenarioReport⟩))).error
        = "Session expired. Please login again.") ∧
    ¬ ((Dashboard.State.initial.run
        (Dashboard.fetchHistory "http://127.0.0.1:8000" "Basic YWxpY2U6c2VjcmV0MQ=="
          (some ⟨401, []⟩))).error = "Session expired. Please login again.") := by
  decide

/-- C11, amended: an upload with a file selected that returns 401 sets the
error `Session expired. Please login again.`; a batch selection that returns
401 sets the error `Failed to load report.`, the message it sets on every
failure before it looks at the status; a history fetch that returns 401 leaves
the error as it was. -/
theorem C11_error_on_401 (base authHeader : String) (st : Dashboard.State) (id : Nat)
    (f : File) (r : Reply ReportData) (h : Reply (List BatchSummary))
    (history : NetResult (List BatchSummary))
    (h401 : r.status = 401) (hh401 : h.status = 401) :
    (st.run (Dashboard.handleFileUpload base authHeader (some f) (some r) history)).error
      = "Session expired. Please login again." ∧
    (st.run (Dashboard.handleBatchSelect base authHeader id (some r))).error
      = "Failed to load report." ∧
    (st.run (Dashboard.fetchHistory base authHeader (some h))).error = st.error := by
  have hv : validateStatus r.status = false := by simp [validateStatus, h401]
  have hhv : validateStatus h.status = false := by simp [validateStatus, hh401]
  refine ⟨?_, ?_, ?_⟩
  · simp [Dashboard.handleFileUpload, axiosSettle_bad r hv, errStatus, h401,
      Dashboard.State.run, Dashboard.State.step]
  · simp [Dashboard.handleBatchSelect, axiosSettle_bad r hv, errStatus, h401,
      Dashboard.State.run, Dashboard.State.step]
  · cases hauth : truthy authHeader <;>
      simp [Dashboard.fetchHistory, Dashboard.fetchHistoryStart, Dashboard.fetchHistorySettle,
        hauth, axiosSettle_bad h hhv, Dashboard.State.run, Dashboard.State.step]

/-- C11, amended, at replies of status 401 in a session logged in as `alice`. -/
theorem C11_error_on_401_witness :
    (Dashboard.State.initial.run
        (Dashboard.handleFileUpload "http://127.0.0.1:8000" "Basic YWxpY2U6c2VjcmV0MQ=="
          (some ⟨"equipment.csv", ""⟩) (some ⟨401, Dashboard.scenarioReport⟩) none)).error
      = "Session expired. Please login again." ∧
    (Dashboard.State.initial.run
        (Dashboard.handleBatchSelect "http://127.0.0.1:8000" "Basic YWxpY2U6c2VjcmV0MQ==" 7
          (some ⟨401, Dashboard.scenarioReport⟩))).error = "Failed to load report." ∧
    (Dashboard.State.initial.run
        (Dashboard.fetchHistory "http://127.0.0.1:8000" "Basic YWxpY2U6c2VjcmV0MQ=="
          (some ⟨401, []⟩))).error = Dashboard.State.initial.error :=
  C11_error_on_401 "http://127.0.0.1:8000" "Basic YWxpY2U6c2VjcmV0MQ==" Dashboard.State.initial 7
    ⟨"equipment.csv", ""⟩ ⟨401, Dashboard.scenarioReport⟩ ⟨401, []⟩ none rfl rfl

/-- From a pathname that only `*` matches, the redirects of an authenticated
session end at the dashboard, given enough fuel. -/
theorem resolve_star_authenticated (matchRoute : String → RoutePath) (pathname : String)
    (fuel : Nat) (hlogin : matchRoute "/login" = .login) (hroot : matchRoute "/" = .root)
    (hstar : matchRoute pathname = .star) :
    resolve matchRoute ProtectedRoute true (fuel + 3) pathname = some .dashboard := by
  simp [resolve, Routes, hstar, hlogin, hroot, ProtectedRoute]

/-- From a pathname that only `*` matches, the redirects of an authenticated
session never end at the login page. -/
theorem resolve_star_authenticated_ne_login (matchRoute : String → RoutePath)
    (pathname : String) (fuel : Nat) (hlogin : matchRoute "/login" = .login)
    (hroot : matchRoute "/" = .root) (hstar : matchRoute pathname = .star) :
    resolve matchRoute ProtectedRoute true fuel pathname ≠ some .login := by
  match fuel with
  | 0 => simp [resolve]
  | 1 => simp [resolve, Routes, hstar]
  | 2 => simp [resolve, Routes, hstar, hlogin]
  | n + 3 => simp [resolve_star_authenticated matchRoute pathname n hlogin hroot hstar]

/-- C12, on the code: a pathname that the router matches to `*` alone renders
a redirect to `/login`.  In an unauthenticated session the redirects end there,
at the login page, as the claim says.  In an authenticated session the route
`/login` renders a redirect to `/`, the redirects end at the dashboard, and with
no amount of fuel do they end at the login page. -/
theorem C12_unknown_path_authenticated_dashboard (matchRoute : String → RoutePath)
    (pathname : String) (fuel : Nat) (hlogin : matchRoute "/login" = .login)
    (hroot : matchRoute "/" = .root) (hstar : matchRoute pathname = .star) :
    (∀ protectedRoute isAuthenticated,
      Routes matchRoute protectedRoute isAuthenticated pathname = .navigate "/login") ∧
    (∀ protectedRoute,
      resolve matchRoute protectedRoute false (fuel + 2) pathname = some .login) ∧
    Routes matchRoute ProtectedRoute true "/login" = .navigate "/" ∧
    resolve matchRoute ProtectedRoute true (fuel + 3) pathname = some .dashboard ∧
    (∀ n, resolve matchRoute ProtectedRoute true n pathname ≠ some .login) := by
  refine ⟨?_, ?_, ?_, resolve_star_authenticated matchRoute pathname fuel hlogin hroot hstar,
    fun n => resolve_star_authenticated_ne_login matchRoute pathname n hlogin hroot hstar⟩
  · intro protectedRoute isAuthenticated
    simp [Routes, hstar]
  · intro protectedRoute
    simp [resolve, Routes, hstar, hlogin]
  · simp [Routes, hlogin]

/-- C12, on the code, at the path `/nowhere` in an authenticated session: the
dashboard is shown, never the login page. -/
theorem C12_unknown_path_authenticated_dashboard_witness :
    resolve literalRoute ProtectedRoute true 3 "/nowhere" = some View.dashboard ∧
    (∀ n, resolve literalRoute ProtectedRoute true n "/nowhere" ≠ some View.login) :=
  have h := C12_unknown_path_authenticated_dashboard literalRoute "/nowhere" 0
    (by decide) (by decide) (by decide)
  ⟨h.2.2.2.1, h.2.2.2.2⟩

/-- A string is truthy exactly when it is not the empty string. -/
theorem truthy_iff (s : String) : truthy s = true ↔ s ≠ "" := by
  cases s with
  | mk data => cases data <;> simp [truthy, String.ext_iff]

/-- Removing a key leaves the other keys of localStorage as they were. -/
theorem getItem_removeItem_ne (ls : Storage) (key other : String) (h : key ≠ other) :
    getItem (removeItem ls key) other = getItem ls other := by
  induction ls with
  | nil => rfl
  | cons e rest ih =>
    simp only [getItem, removeItem] at ih ⊢
    by_cases he : e.1 = key
    · have hne : ¬ e.1 = other := fun h2 => h (he ▸ h2)
      simp only [List.filter_cons, he, bne_self_eq_false, Bool.false_eq_true, if_false,
        List.find?_cons]
      have hb : (key == other) = false := by simpa using h
      simp only [hb]
      exact ih
    · have hk : (e.1 != key) = true := by simpa using he
      simp only [List.filter_cons, hk, if_true, List.find?_cons]
      cases hb : (e.1 == other)
      · exact ih
      · rfl

/-- The mount effect of `App` is the run of its statements. -/
theorem restore_eq_run (prefersDark : Bool) (app : App) :
    restore prefersDark app = app.run (restoreEffects prefersDark app.localStorage) := by
  unfold restore restoreEffects
  cases hth : (getItem app.localStorage "theme" = some "dark" ||
      ((match getItem app.localStorage "theme" with
        | some t => !truthy t | none => true) && prefersDark)) <;>
    cases hau : getItem app.localStorage "authHeader" with
    | none => simp [hth, hau, App.run, App.step]
    | some v => cases htr : truthy v <;> simp [hth, hau, htr, App.run, App.step]

/-- The mount effect of `App`, as far as the session goes: the theme part
leaves the session and localStorage as they were, then the stored credential,
if there is a non-empty one, becomes the credential of an authenticated session. -/
theorem restore_session (prefersDark : Bool) (app : App) :
    ∃ app1 : App, app1.localStorage = app.localStorage ∧
      app1.isAuthenticated = app.isAuthenticated ∧ app1.authHeader = app.authHeader ∧
      restore prefersDark app =
        (match getItem app.localStorage "authHeader" with
         | some savedAuth =>
           if truthy savedAuth then { app1 with authHeader := savedAuth, isAuthenticated := true }
           else app1
         | none => app1) := by
  refine ⟨if getItem app.localStorage "theme" = some "dark" ||
        ((match getItem app.localStorage "theme" with
          | some t => !truthy t | none => true) && prefersDark) then
      { app with darkMode := true, darkClass := true } else app, ?_, ?_, ?_, ?_⟩
  · split <;> rfl
  · split <;> rfl
  · split <;> rfl
  · unfold restore
    by_cases hc : (getItem app.localStorage "theme" = some "dark" ||
        ((match getItem app.localStorage "theme" with
          | some t => !truthy t | none => true) && prefersDark)) = true
    · simp only [hc, if_true]
    · simp only [hc, Bool.false_eq_true, if_false]

/-- C13: the mount effect of `App` reads `authHeader` from localStorage and
issues no request.  When a non-empty value is stored, the in-memory credential
becomes that value and the session becomes authenticated; when the key is
absent or holds the empty string, the session stays unauthenticated with an
empty credential. -/
theorem C13_restore_from_storage (prefersDark : Bool) (ls : Storage) (darkClass : Bool) :
    restore prefersDark (App.initial ls darkClass)
      = (App.initial ls darkClass).run (restoreEffects prefersDark ls) ∧
    appRequests (restoreEffects prefersDark ls) = [] ∧
    (∀ v, getItem ls "authHeader" = some v → v ≠ "" →
      (restore prefersDark (App.initial ls darkClass)).authHeader = v ∧
      (restore prefersDark (App.initial ls darkClass)).isAuthenticated = true) ∧
    (getItem ls "authHeader" = none ∨ getItem ls "authHeader" = some "" →
      (restore prefersDark (App.initial ls darkClass)).isAuthenticated = false ∧
      (restore prefersDark (App.initial ls darkClass)).authHeader = "") := by
  refine ⟨restore_eq_run prefersDark (App.initial ls darkClass), ?_, ?_, ?_⟩
  · simp only [restoreEffects, appRequests, List.filterMap_append]
    have h1 : ∀ c : Bool, List.filterMap
        (fun e => match e with | AppEffect.request req => some req | _ => none)
        (if c = true then [AppEffect.setDarkMode true, AppEffect.classListAdd "dark"] else [])
        = [] := by
      intro c; cases c <;> rfl
    rw [h1]
    cases hau : getItem ls "authHeader" with
    | none => rfl
    | some v => cases htr : truthy v <;> simp [htr]
  · intro v hv hne
    have htr : truthy v = true := (truthy_iff v).2 hne
    obtain ⟨app1, _, _, _, hres⟩ := restore_session prefersDark (App.initial ls darkClass)
    have hv2 : getItem (App.initial ls darkClass).localStorage "authHeader" = some v := hv
    rw [hres, hv2]
    simp [htr]
  · intro h
    obtain ⟨app1, _, hauth, hcred, hres⟩ := restore_session prefersDark (App.initial ls darkClass)
    rw [hres]
    rcases h with h | h
    · have h2 : getItem (App.initial ls darkClass).localStorage "authHeader" = none := h
      rw [h2]
      exact ⟨hauth, hcred⟩
    · have h2 : getItem (App.initial ls darkClass).localStorage "authHeader" = some "" := h
      rw [h2]
      have htr : truthy "" = false := rfl
      simp only [htr]
      exact ⟨hauth, hcred⟩

/-- C13 at a localStorage that holds the credential of `alice`. -/
theorem C13_restore_from_storage_witness :
    (restore false (App.initial [("authHeader", "Basic YWxpY2U6c2VjcmV0MQ==")] false)).authHeader
      = "Basic YWxpY2U6c2VjcmV0MQ==" ∧
    (restore false
      (App.initial [("authHeader", "Basic YWxpY2U6c2VjcmV0MQ==")] false)).isAuthenticated = true :=
  (C13_restore_from_storage false [("authHeader", "Basic YWxpY2U6c2VjcmV0MQ==")] false).2.2.1
    "Basic YWxpY2U6c2VjcmV0MQ==" (by decide) (by decide)

/-- C14: from every session state `handleLogout` yields an unauthenticated
session with an empty in-memory credential and no `authHeader` in localStorage;
it leaves `darkMode`, the class of the root element and the stored `theme` as
they were; and a second `handleLogout` changes nothing more. -/
theorem C14_logout_clears_session (app : App) :
    (handleLogout app).isAuthenticated = false ∧
    (handleLogout app).authHeader = "" ∧
    getItem (handleLogout app).localStorage "authHeader" = none ∧
    (handleLogout app).darkMode = app.darkMode ∧
    (handleLogout app).darkClass = app.darkClass ∧
    getItem (handleLogout app).localStorage "theme" = getItem app.localStorage "theme" ∧
    handleLogout (handleLogout app) = handleLogout app := by
  refine ⟨rfl, rfl, getItem_removeItem _ _, rfl, rfl, ?_, ?_⟩
  · exact getItem_removeItem_ne app.localStorage "authHeader" "theme" (by decide)
  · simp [handleLogout, removeItem, List.filter_filter]

/-- C15: a `fetchHistory` whose request fails, with whatever status or without
reply, leaves the state of the view as it was: report, active batch, loading,
error and the uploads loaded before; and with an empty credential
`fetchHistory` does nothing at all, so issues no request. -/
theorem C15_fetchHistory_fails_silently (base authHeader : String) (st : Dashboard.State)
    (net : NetResult (List BatchSummary)) :
    ((∀ r, net = some r → validateStatus r.status = false) →
      st.run (Dashboard.fetchHistory base authHeader net) = st ∧
      Dashboard.logoutCalls (Dashboard.fetchHistory base authHeader net) = 0) ∧
    (truthy authHeader = false →
      Dashboard.fetchHistory base authHeader net = [] ∧
      Dashboard.requests (Dashboard.fetchHistory base authHeader net) = []) := by
  constructor
  · intro hfail
    have hs : axiosSettle net = .rejected net := by
      cases net with
      | none => rfl
      | some r => exact axiosSettle_bad r (hfail r rfl)
    cases hauth : truthy authHeader <;>
      simp [Dashboard.fetchHistory, Dashboard.fetchHistoryStart, Dashboard.fetchHistorySettle,
        hauth, hs, Dashboard.State.run, Dashboard.State.step, Dashboard.logoutCalls]
  · intro hauth
    simp [Dashboard.fetchHistory, Dashboard.fetchHistoryStart, Dashboard.fetchHistorySettle,
      hauth, Dashboard.requests]

/-- C15 at a reply of status 500 over a view that shows the scenario report. -/
theorem C15_fetchHistory_fails_silently_witness :
    (let st : Dashboard.State :=
       { Dashboard.State.initial with
         stats := some Dashboard.scenarioReport.statistics, batchId := some 42,
         recentUploads := [⟨42, "equipment.csv", 1000⟩] }
     let run := Dashboard.fetchHistory "http://127.0.0.1:8000" "Basic YWxpY2U6c2VjcmV0MQ=="
       (some ⟨500, []⟩)
     st.run run = st ∧ Dashboard.logoutCalls run = 0) :=
  (C15_fetchHistory_fails_silently "http://127.0.0.1:8000" "Basic YWxpY2U6c2VjcmV0MQ=="
    { Dashboard.State.initial with
      stats := some Dashboard.scenarioReport.statistics, batchId := some 42,
      recentUploads := [⟨42, "equipment.csv", 1000⟩] }
    (some ⟨500, []⟩)).1 (fun r h => by cases h; decide)

/-! ## Registration failures -/

/-- The effects of `handleSignup` once the form has passed the validation in
the browser. -/
theorem handleSignup_posted (base : String) (st : Signup.State)
    (net : NetResult Signup.RegisterData)
    (hpw : st.password = st.confirmPassword) (hlen : 6 ≤ jsLength st.password) :
    Signup.handleSignup base st net =
      [.preventDefault, .setError "", .setSuccess "", .setLoading true,
       .request (Signup.registerPost base st)] ++
      (match axiosSettle net with
       | .fulfilled response =>
         if response.status = 201 then
           [.setSuccess "Account created successfully!", .scheduleNavigate "/login" 2000]
         else []
       | .rejected response =>
         match response.bind (fun r => r.data.errors) with
         | some errors => [.setError (Signup.errorMessages errors)]
         | none => [.setError "Registration failed. Please try again."]) ++
      [.setLoading false] := by
  have hlen2 : ¬ jsLength st.confirmPassword < 6 := by rw [← hpw]; omega
  simp [Signup.handleSignup, hpw, hlen2]

/-- C16: when a registration that passed the validation in the browser fails
and the body of the reply has an `errors` mapping, the form error is the
messages of all its fields, in the order of the mapping, joined with `. `; when
it fails without such a mapping, or without reply, the error is
`Registration failed. Please try again.`.  Either way the success message stays
empty and no navigation is scheduled.  For the mapping of `username` to
`already taken` the error is `already taken`. -/
theorem C16_registration_failure_message (base : String) (st : Signup.State)
    (net : NetResult Signup.RegisterData)
    (hpw : st.password = st.confirmPassword) (hlen : 6 ≤ jsLength st.password)
    (hfail : ∀ r, net = some r → validateStatus r.status = false) :
    (∀ r errors, net = some r → r.data.errors = some errors →
      (st.run (Signup.handleSignup base st net)).error
        = jsJoin ". " (errors.map Prod.snd).flatten) ∧
    (net = none ∨ (∃ r, net = some r ∧ r.data.errors = none) →
      (st.run (Signup.handleSignup base st net)).error
        = "Registration failed. Please try again.") ∧
    (st.run (Signup.handleSignup base st net)).success = "" ∧
    Signup.scheduled (Signup.handleSignup base st net) = [] ∧
    (∀ r, net = some r → r.data.errors = some [("username", ["already taken"])] →
      (st.run (Signup.handleSignup base st net)).error = "already taken") := by
  have hs : axiosSettle net = .rejected net := by
    cases net with
    | none => rfl
    | some r => exact axiosSettle_bad r (hfail r rfl)
  have hrun := handleSignup_posted base st net hpw hlen
  rw [hs] at hrun
  have herr : ∀ r errors, net = some r → r.data.errors = some errors →
      (st.run (Signup.handleSignup base st net)).error
        = jsJoin ". " (errors.map Prod.snd).flatten := by
    intro r errors hnet herrors
    rw [hrun, hnet]
    simp [herrors, Signup.State.run, Signup.State.step, Signup.errorMessages]
  refine ⟨herr, ?_, ?_, ?_, ?_⟩
  · intro h
    rw [hrun]
    rcases h with h | ⟨r, h, herrors⟩
    · simp [h, Signup.State.run, Signup.State.step]
    · simp [h, herrors, Signup.State.run, Signup.State.step]
  · rw [hrun]
    cases hb : net.bind (fun r => r.data.errors) <;>
      simp [hb, Signup.State.run, Signup.State.step]
  · rw [hrun]
    cases hb : net.bind (fun r => r.data.errors) <;> simp [hb, Signup.scheduled]
  · intro r hnet herrors
    rw [herr r _ hnet herrors]
    decide

/-- C16 at the reply of status 400 whose body maps `username` to
`already taken`. -/
theorem C16_registration_failure_message_witness :
    (let st : Signup.State :=
       ⟨"alice", "alice@example.org", "secret1", "secret1", false, "", false, ""⟩
     (st.run (Signup.handleSignup "http://127.0.0.1:8000" st
       (some ⟨400, ⟨some [("username", ["already taken"])]⟩⟩))).error = "already taken") :=
  (C16_registration_failure_message "http://127.0.0.1:8000"
    ⟨"alice", "alice@example.org", "secret1", "secret1", false, "", false, ""⟩
    (some ⟨400, ⟨some [("username", ["already taken"])]⟩⟩) rfl (by decide)
    (fun r h => by cases h; decide)).2.2.2.2 _ rfl rfl

/-! ## The Authorization header -/

/-- C17, as stated, fails: the request for the PDF export of batch 42 is the
navigation of a new tab, and it carries no Authorization header. -/
theorem C17_export_pdf_without_authorization :
    Dashboard.exportPdfRequest "http://127.0.0.1:8000" (some 42) =
      some ⟨.GET, "http://127.0.0.1:8000/api/export-pdf/42/", [], none, .empty⟩ ∧
    ¬ (∀ req, Dashboard.exportPdfRequest "http://127.0.0.1:8000" (some 42) = some req →
        req.header "Authorization" = some "Basic YWxpY2U6c2VjcmV0MQ==") := by
  have h : Dashboard.exportPdfRequest "http://127.0.0.1:8000" (some 42) =
      some ⟨.GET, "http://127.0.0.1:8000/api/export-pdf/42/", [], none, .empty⟩ := by
    decide
  refine ⟨h, ?_⟩
  intro hall
  have := hall _ h
  simp [Request.header] at this

/-- C17, amended: every request that `fetchHistory`, `handleBatchSelect` and
`handleFileUpload` hand to `axios`, so every request to `GET /api/upload/`,
`POST /api/upload/` and `GET /api/batch/id/`, carries an Authorization header
whose value is the current credential. -/
theorem C17_axios_requests_authorized (base authHeader : String) (id : Nat) (f : Option File)
    (history : NetResult (List BatchSummary)) (net : NetResult ReportData) (req : Request)
    (hreq : req ∈ Dashboard.requests (Dashboard.fetchHistory base authHeader history) ∨
      req ∈ Dashboard.requests (Dashboard.handleBatchSelect base authHeader id net) ∨
      req ∈ Dashboard.requests (Dashboard.handleFileUpload base authHeader f net history)) :
    req.header "Authorization" = some authHeader ∧
    (req = Dashboard.historyGet base authHeader ∨ req = Dashboard.batchGet base authHeader id ∨
      ∃ file, f = some file ∧ req = Dashboard.uploadPost base authHeader file) := by
  have hcases : req = Dashboard.historyGet base authHeader ∨
      req = Dashboard.batchGet base authHeader id ∨
      ∃ file, f = some file ∧ req = Dashboard.uploadPost base authHeader file := by
    rcases hreq with h | h | h
    · left
      cases hauth : truthy authHeader <;> cases hh : axiosSettle history <;>
        simp [Dashboard.fetchHistory, Dashboard.fetchHistoryStart, Dashboard.fetchHistorySettle,
          hauth, hh, Dashboard.requests] at h
      all_goals exact h
    · right; left
      cases hs : axiosSettle net with
      | fulfilled r =>
        simp [Dashboard.handleBatchSelect, hs, Dashboard.requests] at h
        exact h
      | rejected response =>
        by_cases h401 : errStatus response = some 401 <;>
          simp [Dashboard.handleBatchSelect, hs, h401, Dashboard.requests] at h
        all_goals exact h
    · cases f with
      | none => simp [Dashboard.handleFileUpload, Dashboard.requests] at h
      | some file =>
        cases hs : axiosSettle net with
        | fulfilled r =>
          cases hauth : truthy authHeader <;> cases hh : axiosSettle history <;>
            simp [Dashboard.handleFileUpload, hs, Dashboard.fetchHistoryStart,
              Dashboard.fetchHistorySettle, hauth, hh, Dashboard.requests] at h
          all_goals first
            | exact Or.inr (Or.inr ⟨file, rfl, h⟩)
            | (rcases h with h | h
               · exact Or.inr (Or.inr ⟨file, rfl, h⟩)
               · exact Or.inl h)
        | rejected response =>
          by_cases h401 : errStatus response = some 401 <;>
            simp [Dashboard.handleFileUpload, hs, h401, Dashboard.requests] at h
          all_goals exact Or.inr (Or.inr ⟨file, rfl, h⟩)
  refine ⟨?_, hcases⟩
  rcases hcases with h | h | ⟨file, _, h⟩ <;> subst h <;>
    simp [Request.header, Dashboard.historyGet, Dashboard.batchGet, Dashboard.uploadPost]

/-- C17, amended, at the history request of a session logged in as `alice`. -/
theorem C17_axios_requests_authorized_witness :
    (Dashboard.historyGet "http://127.0.0.1:8000" "Basic YWxpY2U6c2VjcmV0MQ==").header
      "Authorization" = some "Basic YWxpY2U6c2VjcmV0MQ==" :=
  (C17_axios_requests_authorized "http://127.0.0.1:8000" "Basic YWxpY2U6c2VjcmV0MQ==" 7 none
    (some ⟨200, []⟩) none _ (Or.inl (by decide))).1

/-! ## The session invariant -/

/-- A submission of the login form leaves the session as it was or hands a
credential `Basic ...` to `handleLoginSuccess`. -/
theorem afterLogin_cases {α : Type} (base : String) (form : Login.State) (net : NetResult α)
    (app : App) :
    app.afterLogin (Login.handleLogin base true form net) = app ∨
    ∃ enc, app.afterLogin (Login.handleLogin base true form net)
      = handleLoginSuccess ("Basic " ++ enc) app := by
  cases hu : truthy (jsTrim form.username) with
  | false => left; simp [Login.handleLogin, hu, App.afterLogin]
  | true =>
    cases hp : truthy form.password with
    | false => left; simp [Login.handleLogin, hu, hp, App.afterLogin]
    | true =>
      cases henc : btoa (form.username ++ ":" ++ form.password) with
      | none => left; simp [Login.handleLogin, hu, hp, henc, App.afterLogin]
      | some enc =>
        rw [handleLogin_issued base true form net enc hu hp henc]
        cases hs : axiosSettle net with
        | fulfilled r =>
          right
          exact ⟨enc, by simp [App.afterLogin, Login.callOnLoginSuccess]⟩
        | rejected response =>
          by_cases h401 : errStatus response = some 401
          · left; simp [h401, App.afterLogin]
          · right
            exact ⟨enc, by simp [h401, App.afterLogin, Login.callOnLoginSuccess]⟩

theorem basic_ne_empty (enc : String) : "Basic " ++ enc ≠ "" := by
  intro h
  have hd := congrArg String.data h
  simp [String.data_append] at hd

theorem sessionConsistent_initial (ls : Storage) (darkClass : Bool) :
    sessionConsistent (App.initial ls darkClass) := by
  simp [sessionConsistent, App.initial]

/-- Every event of the session keeps it consistent. -/
theorem sessionConsistent_step (app : App) (step : SessionStep) (h : sessionConsistent app) :
    sessionConsistent (step.apply app) := by
  cases step with
  | restore prefersDark =>
    obtain ⟨app1, hls, hauth, hcred, hres⟩ := restore_session prefersDark app
    have h1 : sessionConsistent app1 := by
      unfold sessionConsistent at h ⊢
      rw [hls, hauth, hcred]
      exact h
    show sessionConsistent (restore prefersDark app)
    rw [hres]
    cases hget : getItem app.localStorage "authHeader" with
    | none => exact h1
    | some v =>
      cases htr : truthy v with
      | false =>
        simp only [htr, Bool.false_eq_true, if_false]
        exact h1
      | true =>
        have hne : v ≠ "" := (truthy_iff v).1 htr
        simp only [htr, if_true]
        refine ⟨⟨fun _ => hne, fun _ => rfl⟩, fun _ => ?_⟩
        show getItem app1.localStorage "authHeader" = some v
        rw [hls]; exact hget
  | login base form net =>
    show sessionConsistent (app.afterLogin (Login.handleLogin base true form net))
    rcases afterLogin_cases base form net app with heq | ⟨enc, heq⟩
    · rw [heq]; exact h
    · rw [heq]
      refine ⟨⟨fun _ => basic_ne_empty enc, fun _ => rfl⟩, fun _ => ?_⟩
      exact getItem_setItem _ _ _
  | logout =>
    show sessionConsistent (handleLogout app)
    simp [sessionConsistent, handleLogout]

/-- C18: in every session state reached from the first render of `App` by a
sequence of mount effects, submissions of the login form and logouts, the
session is authenticated exactly when the in-memory credential is not empty,
and when it is authenticated the `authHeader` of localStorage is the in-memory
credential. -/
theorem C18_session_invariant (ls : Storage) (darkClass : Bool) (steps : List SessionStep) :
    ((sessionAfter ls darkClass steps).isAuthenticated = true ↔
      (sessionAfter ls darkClass steps).authHeader ≠ "") ∧
    ((sessionAfter ls darkClass steps).isAuthenticated = true →
      getItem (sessionAfter ls darkClass steps).localStorage "authHeader"
        = some (sessionAfter ls darkClass steps).authHeader) := by
  have hgen : ∀ (steps : List SessionStep) (app : App), sessionConsistent app →
      sessionConsistent (steps.foldl SessionStep.apply app) := by
    intro steps
    induction steps with
    | nil => intro app h; exact h
    | cons step rest ih =>
      intro app h
      exact ih (step.apply app) (sessionConsistent_step app step h)
  exact hgen steps _ (sessionConsistent_initial ls darkClass)

/-! ## The report view as a state machine -/

/-- C19: a batch selection, and an upload with a file selected, first set
`loading` to true and `error` to the empty string, then issue their request;
whatever the network gives, they end with `loading` false, with an empty
`error` exactly when the request succeeded and a non-empty one exactly when it
failed. -/
theorem C19_loading_then_ready_or_failed (base authHeader : String) (st : Dashboard.State)
    (id : Nat) (f : File) (net : NetResult ReportData)
    (history : NetResult (List BatchSummary)) :
    ((Dashboard.handleBatchSelect base authHeader id net).take 3 =
        [.setLoading true, .setError "", .request (Dashboard.batchGet base authHeader id)] ∧
      (st.run ((Dashboard.handleBatchSelect base authHeader id net).take 2)).loading = true ∧
      (st.run ((Dashboard.handleBatchSelect base authHeader id net).take 2)).error = "" ∧
      (st.run (Dashboard.handleBatchSelect base authHeader id net)).loading = false ∧
      ((st.run (Dashboard.handleBatchSelect base authHeader id net)).error = "" ↔
        succeeded net) ∧
      ((st.run (Dashboard.handleBatchSelect base authHeader id net)).error ≠ "" ↔
        ¬ succeeded net)) ∧
    ((Dashboard.handleFileUpload base authHeader (some f) net history).take 3 =
        [.setLoading true, .setError "", .request (Dashboard.uploadPost base authHeader f)] ∧
      (st.run ((Dashboard.handleFileUpload base authHeader (some f) net history).take 2)).loading
        = true ∧
      (st.run ((Dashboard.handleFileUpload base authHeader (some f) net history).take 2)).error
        = "" ∧
      (st.run (Dashboard.handleFileUpload base authHeader (some f) net history)).loading
        = false ∧
      ((st.run (Dashboard.handleFileUpload base authHeader (some f) net history)).error = "" ↔
        succeeded net) ∧
      ((st.run (Dashboard.handleFileUpload base authHeader (some f) net history)).error ≠ "" ↔
        ¬ succeeded net)) := by
  have hsucc : ∀ r : Reply ReportData, validateStatus r.status = true → succeeded (some r) :=
    fun r h => ⟨r, rfl, h⟩
  have hfailed : ∀ r : Reply ReportData, validateStatus r.status = false →
      ¬ succeeded (some r) := by
    rintro r h ⟨r2, heq, h2⟩
    cases heq
    rw [h] at h2
    exact Bool.false_ne_true h2
  have hnone : ¬ succeeded (none : NetResult ReportData) := by
    rintro ⟨r, heq, _⟩
    cases heq
  constructor
  · cases net with
    | none =>
      simp [Dashboard.handleBatchSelect, axiosSettle_none, errStatus, Dashboard.State.run,
        Dashboard.State.step, hnone]
    | some r =>
      cases hv : validateStatus r.status
      · by_cases h401 : r.status = 401 <;>
          simp [Dashboard.handleBatchSelect, axiosSettle_bad r hv, errStatus, h401,
            Dashboard.State.run, Dashboard.State.step, hfailed r hv]
      · simp [Dashboard.handleBatchSelect, axiosSettle_ok r hv, Dashboard.State.run,
          Dashboard.State.step, hsucc r hv]
  · cases net with
    | none =>
      simp [Dashboard.handleFileUpload, axiosSettle_none, errStatus, Dashboard.State.run,
        Dashboard.State.step, hnone]
    | some r =>
      cases hv : validateStatus r.status
      · by_cases h401 : r.status = 401 <;>
          simp [Dashboard.handleFileUpload, axiosSettle_bad r hv, errStatus, h401,
            Dashboard.State.run, Dashboard.State.step, hfailed r hv]
      · cases hauth : truthy authHeader <;> cases hh : axiosSettle history <;>
          simp [Dashboard.handleFileUpload, axiosSettle_ok r hv, Dashboard.fetchHistoryStart,
            Dashboard.fetchHistorySettle, hauth, hh, Dashboard.State.run,
            Dashboard.State.step, hsucc r hv]

/-- C18 at a session that logs in as `alice` without reply, logs out, and
restores: it ends unauthenticated, so with an empty credential. -/
theorem C18_session_invariant_witness :
    (sessionAfter [] false
      [.login "http://127.0.0.1:8000" ⟨"alice", "secret1", false, "", false⟩ none,
       .logout, .restore false]).authHeader = "" := by
  have h := (C18_session_invariant [] false
    [.login "http://127.0.0.1:8000" ⟨"alice", "secret1", false, "", false⟩ none,
     .logout, .restore false]).1
  by_contra hne
  exact absurd (h.2 hne) (by decide)

/-! ## The login form left blank -/

/-- The trimmed username is empty exactly when the username is made of white
space only. -/
theorem jsTrim_blank_iff (s : String) :
    truthy (jsTrim s) = false ↔ ∀ c ∈ s.data, isJsWhiteSpace c = true := by
  have hempty : truthy (jsTrim s) = false ↔ trimChars s.data = [] := by
    simp [truthy, jsTrim, List.isEmpty_iff]
  rw [hempty]
  constructor
  · intro h
    have h1 : ((s.data.dropWhile isJsWhiteSpace).reverse.dropWhile isJsWhiteSpace) = [] := by
      simpa [trimChars] using h
    have h2 : ∀ c ∈ s.data.dropWhile isJsWhiteSpace, isJsWhiteSpace c = true := by
      intro c hc
      exact List.dropWhile_eq_nil_iff.1 h1 c (List.mem_reverse.2 hc)
    have h3 : s.data.dropWhile isJsWhiteSpace = [] := by
      cases hd : s.data.dropWhile isJsWhiteSpace with
      | nil => rfl
      | cons a rest =>
        have hne : s.data.dropWhile isJsWhiteSpace ≠ [] := by simp [hd]
        have hhead := List.head_dropWhile_not isJsWhiteSpace s.data hne
        have ha : isJsWhiteSpace a = true := h2 a (by simp [hd])
        simp [hd, ha] at hhead
    exact List.dropWhile_eq_nil_iff.1 h3
  · intro h
    have h3 : s.data.dropWhile isJsWhiteSpace = [] := List.dropWhile_eq_nil_iff.2 h
    simp [trimChars, h3]

/-- C20: a login submission whose username is empty or made of white space
only, or whose password is empty, issues no request, does not call
`onLoginSuccess` and navigates nowhere, so the session is as it was; its error
is `Please enter both username and password` and `loading` ends false. -/
theorem C20_blank_login_rejected {α : Type} (base : String) (cb : Bool) (st : Login.State)
    (app : App) (net : NetResult α)
    (h : (∀ c ∈ st.username.data, isJsWhiteSpace c = true) ∨ st.password = "") :
    Login.requests (Login.handleLogin base cb st net) = [] ∧
    Login.successCalls (Login.handleLogin base cb st net) = [] ∧
    Login.navigations (Login.handleLogin base cb st net) = [] ∧
    app.afterLogin (Login.handleLogin base cb st net) = app ∧
    (st.run (Login.handleLogin base cb st net)).error
      = "Please enter both username and password" ∧
    (st.run (Login.handleLogin base cb st net)).loading = false := by
  have hcond : (!truthy (jsTrim st.username) || !truthy st.password) = true := by
    rcases h with h | h
    · simp [(jsTrim_blank_iff st.username).2 h]
    · simp [h, truthy]
  have hrun : Login.handleLogin base cb st net =
      [.preventDefault, .setError "", .setLoading true,
       .setError "Please enter both username and password", .setLoading false] := by
    simp only [Login.handleLogin, hcond, if_true]
    rfl
  rw [hrun]
  exact ⟨rfl, rfl, rfl, rfl, rfl, rfl⟩

/-- C20 at a username of two blanks. -/
theorem C20_blank_login_rejected_witness :
    (let st : Login.State := ⟨"  ", "secret1", false, "", false⟩
     let app := App.initial [] false
     let run := Login.handleLogin "http://127.0.0.1:8000" true st (some ⟨200, ()⟩)
     Login.requests run = [] ∧ Login.successCalls run = [] ∧ Login.navigations run = [] ∧
     app.afterLogin run = app ∧
     (st.run run).error = "Please enter both username and password" ∧
     (st.run run).loading = false) :=
  C20_blank_login_rejected "http://127.0.0.1:8000" true ⟨"  ", "secret1", false, "", false⟩
    (App.initial [] false) (some ⟨200, ()⟩) (Or.inl (by decide))

/-! ## Registration: the reply of status 201 -/

/-- C21: a signup submission that passes the validation in the browser issues
exactly one request, the registration POST.  The success message is set, and
the redirect to `/login` scheduled, exactly when the reply has status 201; a
reply with another 2xx status leaves success and error empty, schedules no
navigation and ends with `loading` false. -/
theorem C21_signup_success_only_on_201 (base : String) (st : Signup.State)
    (net : NetResult Signup.RegisterData)
    (hpw : st.password = st.confirmPassword) (hlen : 6 ≤ jsLength st.password) :
    Signup.requests (Signup.handleSignup base st net) = [Signup.registerPost base st] ∧
    (Signup.registerPost base st).method = .POST ∧
    ((st.run (Signup.handleSignup base st net)).success = "Account created successfully!" ↔
      ∃ r, net = some r ∧ r.status = 201) ∧
    ((st.run (Signup.handleSignup base st net)).success ≠ "" ↔
      ∃ r, net = some r ∧ r.status = 201) ∧
    (Signup.scheduled (Signup.handleSignup base st net) = [("/login", 2000)] ↔
      ∃ r, net = some r ∧ r.status = 201) ∧
    (∀ r, net = some r → validateStatus r.status = true → r.status ≠ 201 →
      (st.run (Signup.handleSignup base st net)).success = "" ∧
      (st.run (Signup.handleSignup base st net)).error = "" ∧
      Signup.scheduled (Signup.handleSignup base st net) = [] ∧
      (st.run (Signup.handleSignup base st net)).loading = false) := by
  have hrun := handleSignup_posted base st net hpw hlen
  rw [hrun]
  cases net with
  | none =>
    simp [axiosSettle_none, Signup.requests, Signup.scheduled, Signup.State.run,
      Signup.State.step, Signup.registerPost]
  | some r =>
    cases hv : validateStatus r.status
    · have hne : r.status ≠ 201 := by
        intro h
        rw [h] at hv
        exact absurd hv (by decide)
      cases hb : r.data.errors <;>
        simp [axiosSettle_bad r hv, hv, hb, hne, Signup.requests, Signup.scheduled,
          Signup.State.run, Signup.State.step, Signup.registerPost]
    · by_cases h201 : r.status = 201 <;>
        simp [axiosSettle_ok r hv, hv, h201, Signup.requests, Signup.scheduled,
          Signup.State.run, Signup.State.step, Signup.registerPost]

/-- C21 at a reply of status 200 to a valid form. -/
theorem C21_signup_success_only_on_201_witness :
    (let st : Signup.State :=
       ⟨"alice", "alice@example.org", "secret1", "secret1", false, "", false, ""⟩
     let run := Signup.handleSignup "http://127.0.0.1:8000" st (some ⟨200, ⟨none⟩⟩)
     (st.run run).success = "" ∧ (st.run run).error = "" ∧ Signup.scheduled run = [] ∧
     (st.run run).loading = false) :=
  (C21_signup_success_only_on_201 "http://127.0.0.1:8000"
    ⟨"alice", "alice@example.org", "secret1", "secret1", false, "", false, ""⟩
    (some ⟨200, ⟨none⟩⟩) rfl (by decide)).2.2.2.2.2 _ rfl (by decide) (by decide)

/-! ## Login: a credential that `btoa` cannot build -/

/-- The browser's `btoa` throws exactly when the string has a character above
U+00FF. -/
theorem btoa_eq_none_iff (s : String) : btoa s = none ↔ ∃ c ∈ s.data, 0xFF < c.toNat := by
  unfold btoa
  by_cases h : (s.data.all fun c => decide (c.toNat ≤ 0xFF)) = true
  · simp only [h, if_true]
    constructor
    · intro h2; cases h2
    · rintro ⟨c, hc, hgt⟩
      have := (List.all_eq_true.1 h) c hc
      simp at this
      omega
  · simp only [h, Bool.false_eq_true, if_false]
    simp only [List.all_eq_true, decide_eq_true_eq, not_forall] at h
    obtain ⟨c, hc, hgt⟩ := h
    exact ⟨fun _ => ⟨c, hc, by omega⟩, fun _ => trivial⟩

/-- C22: when the login form is filled in and the username or the password has
a character above U+00FF, `btoa` throws before the `try` block of `handleLogin`:
the handler ends there, with no request issued, no call of `onLoginSuccess` and
no navigation, so the session is as it was; `error` is the empty string set at
the start and `loading` is left at true. -/
theorem C22_btoa_failure_aborts_login {α : Type} (base : String) (cb : Bool) (st : Login.State)
    (app : App) (net : NetResult α)
    (hu : truthy (jsTrim st.username) = true) (hp : truthy st.password = true)
    (hchar : ∃ c, (c ∈ st.username.data ∨ c ∈ st.password.data) ∧ 0xFF < c.toNat) :
    btoa (st.username ++ ":" ++ st.password) = none ∧
    Login.handleLogin base cb st net =
      [.preventDefault, .setError "", .setLoading true, .throw "InvalidCharacterError"] ∧
    Login.requests (Login.handleLogin base cb st net) = [] ∧
    Login.successCalls (Login.handleLogin base cb st net) = [] ∧
    Login.navigations (Login.handleLogin base cb st net) = [] ∧
    app.afterLogin (Login.handleLogin base cb st net) = app ∧
    (app.isAuthenticated = false →
      (app.afterLogin (Login.handleLogin base cb st net)).isAuthenticated = false) ∧
    (st.run (Login.handleLogin base cb st net)).error = "" ∧
    (st.run (Login.handleLogin base cb st net)).loading = true := by
  have hnone : btoa (st.username ++ ":" ++ st.password) = none := by
    rw [btoa_eq_none_iff]
    obtain ⟨c, hc, hgt⟩ := hchar
    refine ⟨c, ?_, hgt⟩
    simp only [String.data_append, List.mem_append]
    rcases hc with hc | hc
    · exact Or.inl (Or.inl hc)
    · exact Or.inr hc
  have hrun : Login.handleLogin base cb st net =
      [.preventDefault, .setError "", .setLoading true, .throw "InvalidCharacterError"] := by
    simp [Login.handleLogin, hu, hp, hnone]
  refine ⟨hnone, hrun, ?_⟩
  rw [hrun]
  exact ⟨rfl, rfl, rfl, rfl, fun h => h, rfl, rfl⟩

/-- C22 at the username `π` and the password `x`. -/
theorem C22_btoa_failure_aborts_login_witness :
    (let st : Login.State := ⟨"π", "x", false, "", false⟩
     let run := Login.handleLogin "http://127.0.0.1:8000" true st (none : NetResult Unit)
     Login.requests run = [] ∧ Login.successCalls run = [] ∧
     (st.run run).error = "" ∧ (st.run run).loading = true) :=
  have h := C22_btoa_failure_aborts_login "http://127.0.0.1:8000" true
    ⟨"π", "x", false, "", false⟩ (App.initial [] false) (none : NetResult Unit)
    (by decide) (by decide) ⟨'π', Or.inl (by decide), by decide⟩
  ⟨h.2.2.1, h.2.2.2.1, h.2.2.2.2.2.2.2.1, h.2.2.2.2.2.2.2.2⟩

/-! ## The history refresh after an upload -/

/-- Every session reached from the first render of `App` is consistent. -/
theorem sessionAfter_consistent (ls : Storage) (darkClass : Bool) (steps : List SessionStep) :
    sessionConsistent (sessionAfter ls darkClass steps) := by
  have hgen : ∀ (steps : List SessionStep) (app : App), sessionConsistent app →
      sessionConsistent (steps.foldl SessionStep.apply app) := by
    intro steps
    induction steps with
    | nil => intro app h; exact h
    | cons step rest ih =>
      intro app h
      exact ih (step.apply app) (sessionConsistent_step app step h)
  exact hgen steps _ (sessionConsistent_initial ls darkClass)

/-- C7: `App` renders `Dashboard` inside `ProtectedRoute`, so in an
authenticated session, and hands it its `authHeader`.  In every such session
reached from the first render of `App`, an upload with a file selected issues
exactly one history request `GET /api/upload/` when its POST succeeds and none
when its POST fails, with whatever status or without reply. -/
theorem C7_upload_refreshes_history_once (ls : Storage) (darkClass : Bool)
    (steps : List SessionStep) (base : String) (f : File) (net : NetResult ReportData)
    (history : NetResult (List BatchSummary))
    (hauth : (sessionAfter ls darkClass steps).isAuthenticated = true) :
    (succeeded net →
      Dashboard.historyRefreshes base
        (Dashboard.handleFileUpload base (sessionAfter ls darkClass steps).authHeader
          (some f) net history) = 1) ∧
    (¬ succeeded net →
      Dashboard.historyRefreshes base
        (Dashboard.handleFileUpload base (sessionAfter ls darkClass steps).authHeader
          (some f) net history) = 0) := by
  have hcons := sessionAfter_consistent ls darkClass steps
  have htr : truthy (sessionAfter ls darkClass steps).authHeader = true :=
    (truthy_iff _).2 (hcons.1.1 hauth)
  have h := handleFileUpload_history_refreshes base
    (sessionAfter ls darkClass steps).authHeader f net history
  refine ⟨fun hs => h.1 hs htr, fun hns => h.2.2 ?_⟩
  intro r hnet
  cases hv : validateStatus r.status with
  | false => rfl
  | true => exact absurd ⟨r, hnet, hv⟩ hns

/-- C7 at the upload scenario, in the session of `alice` logged in without
reply to the verification request. -/
theorem C7_upload_refreshes_history_once_witness :
    Dashboard.historyRefreshes "http://127.0.0.1:8000"
      (Dashboard.handleFileUpload "http://127.0.0.1:8000"
        (sessionAfter [] false
          [.login "http://127.0.0.1:8000" ⟨"alice", "secret1", false, "", false⟩ none]).authHeader
        (some ⟨"equipment.csv", ""⟩) (some ⟨200, Dashboard.scenarioReport⟩) none) = 1 :=
  (C7_upload_refreshes_history_once [] false
    [.login "http://127.0.0.1:8000" ⟨"alice", "secret1", false, "", false⟩ none]
    "http://127.0.0.1:8000" ⟨"equipment.csv", ""⟩ (some ⟨200, Dashboard.scenarioReport⟩) none
    (by decide)).1 ⟨_, rfl, by decide⟩

end ChemViz
